import Mathlib

/-
Verification development for the privy/Orderly signing-and-orchestration
scripts.  The JavaScript sources are shallowly embedded: every network or
custody effect is recorded as an explicit event in a trace, responses of the
external collaborators (custody service, exchange REST API, chain RPC) are
supplied by an environment record, and the pure library primitives used by
the scripts (UTF-8 encoding, base64, JSON serialization, decimal scaling,
keccak-style hashing) are either implemented executably or, for the hash,
taken as an explicit function parameter.
-/

/-- Truthiness of an optional JavaScript string: undefined and the empty
string are falsy, every other string is truthy. -/
def jsTruthyStr (o : Option String) : Bool :=
  match o with
  | none => false
  | some s => !s.isEmpty

/-- Model of the JavaScript toUpperCase primitive on the ASCII strings the
scripts handle. -/
def jsToUpper (s : String) : String :=
  String.mk (s.data.map Char.toUpper)

/-- Numeric value of a list of decimal digit characters, most significant
first (the value JavaScript code obtains from a run of digits). -/
def digitsToNat (cs : List Char) : Nat :=
  cs.foldl (fun n c => n * 10 + (c.toNat - 48)) 0

/-- Numeric value of a string of decimal digits. -/
def strDigitsToNat (s : String) : Nat :=
  digitsToNat s.data

/-- UTF-8 encoding of a single character as its byte values. -/
def utf8EncodeChar (c : Char) : List Nat :=
  let n := c.toNat
  if n < 128 then [n]
  else if n < 2048 then [192 + n / 64, 128 + n % 64]
  else if n < 65536 then [224 + n / 4096, 128 + n / 64 % 64, 128 + n % 64]
  else [240 + n / 262144, 128 + n / 4096 % 64, 128 + n / 64 % 64, 128 + n % 64]

/-- UTF-8 encoding of a string as its byte values (the bytes produced by
Buffer.from(s, utf-8) and by TextEncoder.encode). -/
def utf8Encode (s : String) : List Nat :=
  (s.data.map utf8EncodeChar).flatten

/-- Alphabet of standard base64. -/
def base64Alphabet : String :=
  "ABCDEFGHIJKLMNOPQRSTUVWXYZabcdefghijklmnopqrstuvwxyz0123456789+/"

/-- Character of the standard base64 alphabet at a six-bit index. -/
def base64Char (n : Nat) : Char :=
  base64Alphabet.data.getD n 'A'

/-- Standard base64 encoding of a byte list (the encoding produced by
Buffer.toString(base64)). -/
def base64Encode : List Nat → String
  | [] => ""
  | [a] =>
    String.mk [base64Char (a / 4), base64Char (a % 4 * 16), '=', '=']
  | [a, b] =>
    String.mk [base64Char (a / 4), base64Char (a % 4 * 16 + b / 16),
      base64Char (b % 16 * 4), '=']
  | a :: b :: c :: rest =>
    String.mk [base64Char (a / 4), base64Char (a % 4 * 16 + b / 16),
      base64Char (b % 16 * 4 + c / 64), base64Char (c % 64)] ++
    base64Encode rest

/-- Big-endian encoding of a natural number in a fixed number of bytes,
truncating the high end; this is how the chain ABI left-pads an address or a
32-byte word to a fixed width. -/
def natToBeBytes : Nat → Nat → List Nat
  | 0, _ => []
  | k + 1, n => natToBeBytes k (n / 256) ++ [n % 256]

/-- Decoding of a big-endian byte list back to a natural number. -/
def beBytesToNat (bs : List Nat) : Nat :=
  bs.foldl (fun a b => a * 256 + b) 0

theorem beBytesToNat_natToBeBytes (k n : Nat) :
    beBytesToNat (natToBeBytes k n) = n % 256 ^ k := by
  induction k generalizing n with
  | zero => simp [natToBeBytes, beBytesToNat, Nat.mod_one]
  | succ k ih =>
    have hfold : beBytesToNat (natToBeBytes k (n / 256) ++ [n % 256]) =
        beBytesToNat (natToBeBytes k (n / 256)) * 256 + n % 256 := by
      simp [beBytesToNat, List.foldl_append]
    have hmul : n % (256 * 256 ^ k) = n % 256 + 256 * (n / 256 % 256 ^ k) :=
      Nat.mod_mul
    calc beBytesToNat (natToBeBytes (k + 1) n)
        = beBytesToNat (natToBeBytes k (n / 256)) * 256 + n % 256 := by
          simp [natToBeBytes, hfold]
      _ = (n / 256 % 256 ^ k) * 256 + n % 256 := by rw [ih]
      _ = n % (256 * 256 ^ k) := by omega
      _ = n % 256 ^ (k + 1) := by ring_nf

theorem natToBeBytes_inj {k a b : Nat} (ha : a < 256 ^ k) (hb : b < 256 ^ k)
    (h : natToBeBytes k a = natToBeBytes k b) : a = b := by
  have := congrArg beBytesToNat h
  rw [beBytesToNat_natToBeBytes, beBytesToNat_natToBeBytes,
    Nat.mod_eq_of_lt ha, Nat.mod_eq_of_lt hb] at this
  exact this

/-- Value of a hexadecimal digit character (0 for non-hex characters). -/
def hexDigitVal (c : Char) : Nat :=
  if c.isDigit then c.toNat - 48
  else if 'a' ≤ c && c ≤ 'f' then c.toNat - 87
  else if 'A' ≤ c && c ≤ 'F' then c.toNat - 55
  else 0

/-- Numeric value of a 0x-prefixed hexadecimal chain address string. -/
def hexAddrToNat (s : String) : Nat :=
  let cs :=
    match s.data with
    | '0' :: 'x' :: rest => rest
    | cs => cs
  cs.foldl (fun n c => n * 16 + hexDigitVal c) 0

/-- Shallow model of the JSON values the scripts build: the request bodies
and typed-data messages are objects whose fields are strings, numbers or
nested objects, with fields kept in insertion order as JavaScript does. -/
inductive JVal where
  | str (s : String)
  | num (n : Nat)
  | obj (fields : List (String × JVal))
  deriving Repr

/-- Escape of one character inside a JSON string literal, as produced by
JSON.stringify (further control characters would be u-escaped by JavaScript;
none of the strings handled by these scripts contain them). -/
def jsonEscapeChar (c : Char) : String :=
  if c = '"' then "\\\""
  else if c = '\\' then "\\\\"
  else if c = Char.ofNat 10 then "\\n"
  else if c = Char.ofNat 13 then "\\r"
  else if c = Char.ofNat 9 then "\\t"
  else if c = Char.ofNat 8 then "\\b"
  else if c = Char.ofNat 12 then "\\f"
  else String.singleton c

/-- Quoted JSON string literal for a string value. -/
def jsonQuote (s : String) : String :=
  "\"" ++ String.join (s.data.map jsonEscapeChar) ++ "\""

mutual

/-- Serialization of a JSON value exactly as JSON.stringify renders it:
no whitespace, object fields in insertion order. -/
def JVal.render : JVal → String
  | JVal.str s => jsonQuote s
  | JVal.num n => toString n
  | JVal.obj fs => "\x7b" ++ JVal.renderFields fs ++ "\x7d"

/-- Serialization of the comma-separated field list of a JSON object. -/
def JVal.renderFields : List (String × JVal) → String
  | [] => ""
  | [(k, v)] => jsonQuote k ++ ":" ++ JVal.render v
  | (k, v) :: f :: rest =>
    jsonQuote k ++ ":" ++ JVal.render v ++ "," ++ JVal.renderFields (f :: rest)

end

/-- Field lookup in a JSON object value (none on non-objects). -/
def JVal.lookupField (j : JVal) (key : String) : Option JVal :=
  match j with
  | JVal.obj fs => fs.lookup key
  | _ => none

/-- Split of a character list at every dot, accumulating the current
component in reverse; this mirrors splitting the amount string at the
decimal point. -/
def splitDotAux : List Char → List Char → List (List Char)
  | [], acc => [acc.reverse]
  | c :: rest, acc =>
    if c = '.' then acc.reverse :: splitDotAux rest []
    else splitDotAux rest (c :: acc)

/-- Helper for the parseUnits model: value of the parts of the amount
string after splitting at the decimal point. -/
def parseUnitsParts : List (List Char) → Nat → Option Nat
  | [w], decimals =>
    if !w.isEmpty && w.all Char.isDigit then
      some (digitsToNat w * 10 ^ decimals)
    else none
  | [w, f], decimals =>
    if (!w.isEmpty || !f.isEmpty) && w.all Char.isDigit &&
        f.all Char.isDigit && decide (f.length ≤ decimals) then
      some (digitsToNat w * 10 ^ decimals +
        digitsToNat f * 10 ^ (decimals - f.length))
    else none
  | _, _ => none

/-- Model of the ethers parseUnits primitive on nonnegative decimal strings:
the integer value of the string scaled by ten to the given decimals, or none
when the string is malformed or carries more fractional digits than the
token has decimals (ethers throws in those cases).  Negative amounts are not
modelled; the scripts only pass nonnegative amount strings. -/
def parseUnitsNat (s : String) (decimals : Nat) : Option Nat :=
  parseUnitsParts (splitDotAux s.data []) decimals

theorem parseUnitsParts_scale {ps : List (List Char)} {d v : Nat} (k : Nat)
    (h : parseUnitsParts ps d = some v) :
    parseUnitsParts ps (d + k) = some (v * 10 ^ k) := by
  match ps with
  | [] => exact absurd h (by simp [parseUnitsParts])
  | [w] =>
    rw [parseUnitsParts] at h ⊢
    by_cases hc : (!w.isEmpty && w.all Char.isDigit) = true
    · rw [if_pos hc] at h
      rw [if_pos hc]
      have hv : digitsToNat w * 10 ^ d = v := by injection h
      rw [← hv, pow_add]
      ring_nf
    · rw [if_neg hc] at h; exact absurd h (by simp)
  | [w, f] =>
    rw [parseUnitsParts] at h ⊢
    by_cases hc2 : ((!w.isEmpty || !f.isEmpty) && w.all Char.isDigit &&
        f.all Char.isDigit && decide (f.length ≤ d)) = true
    · rw [if_pos hc2] at h
      have hc3 : ((!w.isEmpty || !f.isEmpty) && w.all Char.isDigit &&
          f.all Char.isDigit && decide (f.length ≤ d + k)) = true := by
        simp only [Bool.and_eq_true, decide_eq_true_eq] at hc2 ⊢
        exact ⟨hc2.1, by omega⟩
      have hlen : f.length ≤ d := by
        simp only [Bool.and_eq_true, decide_eq_true_eq] at hc2
        exact hc2.2
      rw [if_pos hc3]
      have hv : digitsToNat w * 10 ^ d +
          digitsToNat f * 10 ^ (d - f.length) = v := by injection h
      have hexp : d + k - f.length = (d - f.length) + k := by omega
      rw [← hv, pow_add, hexp, pow_add]
      ring_nf
    · rw [if_neg hc2] at h; exact absurd h (by simp)
  | _ :: _ :: _ :: _ => exact absurd h (by simp [parseUnitsParts])

theorem parseUnitsNat_scale {s : String} {d v : Nat} (k : Nat)
    (h : parseUnitsNat s d = some v) :
    parseUnitsNat s (d + k) = some (v * 10 ^ k) :=
  parseUnitsParts_scale k h

/-- Model of the JavaScript parseFloat primitive as an exact fraction:
leading whitespace is skipped, an optional sign, a decimal mantissa and an
optional exponent part are parsed as the longest valid prefix, and none is
returned exactly when JavaScript returns NaN.  The parsed value is the exact
rational numerator / denominator of the returned pair (the denominator is a
positive power of ten); the IEEE-754 rounding JavaScript applies is replaced
by this exact value, and the special Infinity literals are not modelled. -/
def jsParseFloat (s : String) : Option (Int × Nat) :=
  let cs := s.data.dropWhile (fun c => c == ' ' || c == '\t' || c == '\n' || c == '\r')
  let signedTail : Int × List Char :=
    match cs with
    | '-' :: t => (-1, t)
    | '+' :: t => (1, t)
    | _ => (1, cs)
  let sgn := signedTail.1
  let cs1 := signedTail.2
  let intDigits := cs1.takeWhile Char.isDigit
  let rest1 := cs1.dropWhile Char.isDigit
  let fracTail : List Char × List Char :=
    match rest1 with
    | '.' :: t => (t.takeWhile Char.isDigit, t.dropWhile Char.isDigit)
    | _ => ([], rest1)
  let fracDigits := fracTail.1
  let rest2 := fracTail.2
  if intDigits.isEmpty && fracDigits.isEmpty then none
  else
    let mantissaNum : Nat :=
      digitsToNat intDigits * 10 ^ fracDigits.length + digitsToNat fracDigits
    let mantissaDen : Nat := 10 ^ fracDigits.length
    let expVal : Int :=
      match rest2 with
      | 'e' :: t =>
        let esignedTail : Int × List Char :=
          match t with
          | '-' :: u => (-1, u)
          | '+' :: u => (1, u)
          | _ => (1, t)
        let eds := esignedTail.2.takeWhile Char.isDigit
        if eds.isEmpty then 0 else esignedTail.1 * (digitsToNat eds : Int)
      | 'E' :: t =>
        let esignedTail : Int × List Char :=
          match t with
          | '-' :: u => (-1, u)
          | '+' :: u => (1, u)
          | _ => (1, t)
        let eds := esignedTail.2.takeWhile Char.isDigit
        if eds.isEmpty then 0 else esignedTail.1 * (digitsToNat eds : Int)
      | _ => 0
    some (sgn * (mantissaNum : Int) * (10 : Int) ^ expVal.toNat,
      mantissaDen * 10 ^ (-expVal).toNat)

/-- Exact rational value represented by a parseFloat result pair. -/
def fracToRat (p : Int × Nat) : ℚ :=
  (p.1 : ℚ) / (p.2 : ℚ)

/-
Effectful script flows are modelled as values of Run: the outcome of the
flow (ok result or thrown error) paired with the trace of external effects
performed, in order.  runBind sequences two stages, discarding the second
stage when the first throws, exactly as a JavaScript throw aborts the rest
of an async function.
-/

/-- Outcome-and-trace pair of one run of a script flow. -/
def Run (ε ev α : Type) : Type := Except ε α × List ev

/-- Sequencing of two stages of a flow; the trace of the first stage is kept
even when it throws, and the second stage runs only on success. -/
def runBind {ε ev α β : Type} (x : Run ε ev α) (f : α → Run ε ev β) :
    Run ε ev β :=
  match x with
  | (Except.error e, tr) => (Except.error e, tr)
  | (Except.ok a, tr) => ((f a).1, tr ++ (f a).2)

/-- Stage that succeeds with a value and performs no effect. -/
def runPure {ε ev α : Type} (a : α) : Run ε ev α := (Except.ok a, [])

/-- Stage that throws and performs no effect. -/
def runThrow {ε ev α : Type} (e : ε) : Run ε ev α := (Except.error e, [])

/-- Stage that records one external effect and succeeds. -/
def runTell {ε ev : Type} (e : ev) : Run ε ev Unit := (Except.ok (), [e])

theorem runBind_tell {ε ev β : Type} (e : ev) (f : Unit → Run ε ev β) :
    runBind (runTell e) f = ((f ()).1, e :: (f ()).2) := by
  simp [runBind, runTell]

theorem runBind_pure {ε ev α β : Type} (a : α) (f : α → Run ε ev β) :
    runBind (runPure a) f = f a := by
  simp [runBind, runPure]

theorem runBind_throw {ε ev α β : Type} (e : ε) (f : α → Run ε ev β) :
    runBind (runThrow e) f = (Except.error e, []) := by
  simp [runBind, runThrow]

namespace OrderlyAuth

/-- Request configuration returned by createAuthenticatedRequest: the fetch
method, the header list and the serialized body (absent for GET calls). -/
structure RequestConfig where
  method : String
  headers : List (String × String)
  body : Option String
  deriving Repr

/-- Shallow embedding of createAuthenticatedRequest from orderly-auth.js.
The ed25519 detached-signature primitive of the noble library is an external
pure function and is passed as the sign parameter (message bytes and private
key bytes to signature bytes); Date.now() is passed as nowMs.  The body is
the JSON value the caller would pass; null is modelled as none. -/
def createAuthenticatedRequest (sign : List Nat → List Nat → List Nat)
    (nowMs : Nat) (method path : String) (body : Option JVal)
    (accountId orderlyKey : String) (orderlyPrivateKey : List Nat) :
    RequestConfig :=
  let timestamp := toString nowMs
  let message :=
    timestamp ++ method ++ path ++
      (match body with
       | some b => JVal.render b
       | none => "")
  let messageBytes := utf8Encode message
  let signature := sign messageBytes orderlyPrivateKey
  let signatureBase64 := base64Encode signature
  { method := method
    headers :=
      [("Content-Type", "application/json"),
       ("orderly-timestamp", timestamp),
       ("orderly-account-id", accountId),
       ("orderly-key", orderlyKey),
       ("orderly-signature", signatureBase64)]
    body :=
      match body with
      | some b => some (JVal.render b)
      | none => none }

end OrderlyAuth

/-
Each script file carries its own copy of getAccountId.  Every copy is
embedded separately, in a namespace named after its file, so that the copies
can be compared.  The keccak256 primitive of the ethers library is an
external pure function on byte lists and is passed explicitly; the
solidityPackedKeccak256 call on a single string argument is keccak of the
UTF-8 bytes of the string, and abi.encode of an address and a bytes32 value
is the 32-byte big-endian left-padded address followed by the 32 hash
bytes.  Addresses are taken by their numeric value.
-/

namespace WithdrawUSDC

/-- Embedding of getAccountId from js/withdrawUSDC.js. -/
def getAccountId (keccak256 : List Nat → List Nat) (address : Nat)
    (brokerId : String) : List Nat :=
  let brokerIdHash := keccak256 (utf8Encode brokerId)
  keccak256 (natToBeBytes 32 address ++ brokerIdHash)

end WithdrawUSDC

namespace DepositUSDC

/-- Embedding of getAccountId from the depositUSDC script. -/
def getAccountId (keccak256 : List Nat → List Nat) (address : Nat)
    (brokerId : String) : List Nat :=
  let brokerIdHash := keccak256 (utf8Encode brokerId)
  keccak256 (natToBeBytes 32 address ++ brokerIdHash)

end DepositUSDC

namespace CreateOrder

/-- Embedding of getAccountId from js/createOrder.js. -/
def getAccountId (keccak256 : List Nat → List Nat) (address : Nat)
    (brokerId : String) : List Nat :=
  let brokerIdHash := keccak256 (utf8Encode brokerId)
  keccak256 (natToBeBytes 32 address ++ brokerIdHash)

end CreateOrder

namespace SendTransaction

/-- Embedding of getAccountId from sendTransaction.js. -/
def getAccountId (keccak256 : List Nat → List Nat) (address : Nat)
    (brokerId : String) : List Nat :=
  let brokerIdHash := keccak256 (utf8Encode brokerId)
  keccak256 (natToBeBytes 32 address ++ brokerIdHash)

end SendTransaction

namespace ScriptPart001

/-- Embedding of getAccountId from the first unnamed script. -/
def getAccountId (keccak256 : List Nat → List Nat) (address : Nat)
    (brokerId : String) : List Nat :=
  let brokerIdHash := keccak256 (utf8Encode brokerId)
  keccak256 (natToBeBytes 32 address ++ brokerIdHash)

end ScriptPart001

namespace ScriptPart002

/-- Embedding of getAccountId from the second unnamed script. -/
def getAccountId (keccak256 : List Nat → List Nat) (address : Nat)
    (brokerId : String) : List Nat :=
  let brokerIdHash := keccak256 (utf8Encode brokerId)
  keccak256 (natToBeBytes 32 address ++ brokerIdHash)

end ScriptPart002

/-- Account identifier formula published by the exchange, written from the
spec: hash of the ABI encoding of the address together with the hash of the
packed broker identifier. -/
def deriveAccountIdSpec (keccak256 : List Nat → List Nat) (address : Nat)
    (brokerId : String) : List Nat :=
  keccak256 (natToBeBytes 32 address ++ keccak256 (utf8Encode brokerId))

namespace WithdrawUSDC

/-- Broker identifier constant of the scripts. -/
def BROKER_ID : String := "woofi_pro"

/-- Verifying contract used for withdrawals. -/
def WITHDRAW_VERIFYING_CONTRACT : String :=
  "0x6F7a338F2aA472838dEFD3283eB360d4Dff5D203"

/-- Token decimals table of js/withdrawUSDC.js. -/
def TOKEN_DECIMALS : List (String × Nat) :=
  [("USDC", 6), ("USDT", 6), ("DAI", 18), ("WETH", 18), ("ETH", 18)]

/-- Decimals chosen by the script for a token symbol: the table entry, or 18
when the symbol is absent.  The source writes the lookup with a JavaScript
or-default, equivalent here because every table value is nonzero. -/
def tokenDecimalsOrDefault (token : String) : Nat :=
  match TOKEN_DECIMALS.lookup token with
  | some d => d
  | none => 18

/-- Errors thrown by the withdrawal script; each constructor corresponds to
one throw site (or, for invalidAmount, to the CLI entry point rejecting the
amount and exiting).  The exchangeRejected and nonceFetchFailed constructors
carry the raw serialized response body embedded in the thrown message. -/
inductive WErr where
  | missingAppCredentials
  | missingAuthCredentials
  | missingWalletId
  | missingAmount
  | missingOrderlyKey
  | missingOrderlyPrivateKey
  | missingWalletAddress
  | nonceFetchFailed (raw : String)
  | missingNonce
  | invalidAmountString
  | exchangeRejected (raw : String)
  | invalidAmount
  deriving Repr, DecidableEq

/-- External effects of the withdrawal flow: the custody wallet lookup, the
authenticated nonce fetch (an exchange HTTP call), the custody typed-data
signing call, and the exchange POST of the withdraw request. -/
inductive WEv where
  | fetchWallet
  | nonceFetch
  | custodySign
  | exchangePost (body : JVal)

/-- Whether an event is the nonce fetch. -/
def WEv.isNonceFetch : WEv → Bool
  | WEv.nonceFetch => true
  | _ => false

/-- Whether an event is the custody signing call. -/
def WEv.isCustodySign : WEv → Bool
  | WEv.custodySign => true
  | _ => false

/-- Whether an event is an exchange HTTP call (nonce fetch or POST). -/
def WEv.isExchangeHttp : WEv → Bool
  | WEv.nonceFetch => true
  | WEv.exchangePost _ => true
  | _ => false

/-- Environment of one withdrawal run: configuration strings, the custody
service responses, the exchange responses and the clock. -/
structure WithdrawEnv where
  appId : Option String
  appSecret : Option String
  authorizationId : Option String
  authorizationSecret : Option String
  orderlyKey : Option String
  orderlyPrivateKey : Option String
  resolvedAddress : Option String
  nonceOk : Bool
  nonceRaw : String
  nonceValue : Option Nat
  signature : String
  nowMs : Nat
  keccak : List Nat → List Nat
  withdrawOk : Bool
  withdrawSuccess : Bool
  withdrawRaw : String

/-- Caller options of withdrawFunds. -/
structure WithdrawOptions where
  walletId : Option String
  walletAddress : Option String
  amount : Option String
  token : Option String
  chainId : Option Nat

/-- EIP-712 withdrawal message of js/withdrawUSDC.js: amount, withdrawNonce
and timestamp are stored as decimal strings (the source calls toString on
each), chainId as a number. -/
def buildWithdrawMessage (brokerId : String) (chainIdNumber : Nat)
    (walletAddress token : String) (amountWei withdrawNonce nowMs : Nat) :
    JVal :=
  JVal.obj
    [("brokerId", JVal.str brokerId),
     ("chainId", JVal.num chainIdNumber),
     ("receiver", JVal.str walletAddress),
     ("token", JVal.str token),
     ("amount", JVal.str (toString amountWei)),
     ("withdrawNonce", JVal.str (toString withdrawNonce)),
     ("timestamp", JVal.str (toString nowMs))]

/-- Outer request body POSTed to the withdraw endpoint.  The source rebuilds
the message field by calling toString on amount, withdrawNonce and
timestamp; those values are already strings, so the embedded message equals
the typed-data message object. -/
def buildWithdrawRequestBody (message : JVal) (signature walletAddress : String) :
    JVal :=
  JVal.obj
    [("message", message),
     ("signature", JVal.str signature),
     ("userAddress", JVal.str walletAddress),
     ("verifyingContract", JVal.str WITHDRAW_VERIFYING_CONTRACT)]

/-- Context assembled by the part of withdrawFunds that runs before the
custody signing call. -/
structure WCtx where
  walletAddress : String
  token : String
  chainIdNumber : Nat
  amount : String
  amountWei : Nat
  withdrawNonce : Nat
  accountId : List Nat
  message : JVal

/-- Wallet address resolution: the caller-supplied address, or one custody
lookup when absent. -/
def resolveAddress (env : WithdrawEnv) (opts : WithdrawOptions) :
    Run WErr WEv String :=
  if jsTruthyStr opts.walletAddress then runPure (opts.walletAddress.getD "")
  else
    runBind (runTell WEv.fetchWallet) (fun _ =>
      if jsTruthyStr env.resolvedAddress then runPure (env.resolvedAddress.getD "")
      else runThrow WErr.missingWalletAddress)

/-- Authenticated withdrawal-nonce fetch (getWithdrawalNonce): one exchange
HTTP call; a non-2xx response throws with the raw body, a 2xx response
yields the possibly-absent nonce field of the payload. -/
def fetchNonce (env : WithdrawEnv) : Run WErr WEv (Option Nat) :=
  runBind (runTell WEv.nonceFetch) (fun _ =>
    if !env.nonceOk then runThrow (WErr.nonceFetchFailed env.nonceRaw)
    else runPure env.nonceValue)

/-- Stage of withdrawFunds before the custody signing call: credential and
argument validation, address resolution, the nonce fetch, amount scaling and
message construction.  Note that withdrawFunds itself performs no minimum-
amount validation; that check lives only in the CLI entry point. -/
def withdrawPre (env : WithdrawEnv) (opts : WithdrawOptions) :
    Run WErr WEv WCtx :=
  if !(jsTruthyStr env.appId && jsTruthyStr env.appSecret) then
    runThrow WErr.missingAppCredentials
  else if !(jsTruthyStr env.authorizationId && jsTruthyStr env.authorizationSecret) then
    runThrow WErr.missingAuthCredentials
  else if !(jsTruthyStr opts.walletId) then runThrow WErr.missingWalletId
  else if !(jsTruthyStr opts.amount) then runThrow WErr.missingAmount
  else if !(jsTruthyStr env.orderlyKey) then runThrow WErr.missingOrderlyKey
  else if !(jsTruthyStr env.orderlyPrivateKey) then
    runThrow WErr.missingOrderlyPrivateKey
  else
    let chainIdNumber := opts.chainId.getD 80001
    let token := jsToUpper (opts.token.getD "USDC")
    let amount := opts.amount.getD ""
    runBind (resolveAddress env opts) (fun walletAddress =>
      let accountId := getAccountId env.keccak (hexAddrToNat walletAddress) BROKER_ID
      runBind (fetchNonce env) (fun nonceOpt =>
        let tokenDecimals := tokenDecimalsOrDefault token
        match parseUnitsNat amount tokenDecimals with
        | none => runThrow WErr.invalidAmountString
        | some amountWei =>
          match nonceOpt with
          | none => runThrow WErr.missingNonce
          | some withdrawNonce =>
            runPure
              { walletAddress := walletAddress
                token := token
                chainIdNumber := chainIdNumber
                amount := amount
                amountWei := amountWei
                withdrawNonce := withdrawNonce
                accountId := accountId
                message := buildWithdrawMessage BROKER_ID chainIdNumber
                  walletAddress token amountWei withdrawNonce env.nowMs }))

/-- Result object returned by a successful withdrawFunds call. -/
structure WithdrawResult where
  userAddress : String
  amount : String
  token : String
  targetChainId : Nat
  withdrawNonce : Nat
  deriving Repr, DecidableEq

/-- Stage of withdrawFunds from the custody signing call onward: sign the
typed data, POST the request body, then check the HTTP status and the
success field of the payload, throwing with the raw body on either
failure. -/
def withdrawMain (env : WithdrawEnv) (ctx : WCtx) :
    Run WErr WEv WithdrawResult :=
  runBind (runTell WEv.custodySign) (fun _ =>
    let signature := env.signature
    let requestBody := buildWithdrawRequestBody ctx.message signature ctx.walletAddress
    runBind (runTell (WEv.exchangePost requestBody)) (fun _ =>
      if !env.withdrawOk then runThrow (WErr.exchangeRejected env.withdrawRaw)
      else if !env.withdrawSuccess then runThrow (WErr.exchangeRejected env.withdrawRaw)
      else
        runPure
          { userAddress := ctx.walletAddress
            amount := ctx.amount
            token := ctx.token
            targetChainId := ctx.chainIdNumber
            withdrawNonce := ctx.withdrawNonce }))

/-- Embedding of withdrawFunds from js/withdrawUSDC.js. -/
def withdrawFunds (env : WithdrawEnv) (opts : WithdrawOptions) :
    Run WErr WEv WithdrawResult :=
  runBind (withdrawPre env opts) (withdrawMain env)

/-- Embedding of the amount validation and dispatch of the CLI entry point
main of js/withdrawUSDC.js: when an amount option is present it is parsed
with parseFloat and the process exits with an error before calling
withdrawFunds if the value is NaN or below 1.001.  The comparison of the
source, amountNum below 1.001, is rendered exactly on the parsed fraction by
cross-multiplication with the positive denominator. -/
def mainValidateAndRun (env : WithdrawEnv) (opts : WithdrawOptions) :
    Run WErr WEv WithdrawResult :=
  match opts.amount with
  | some a =>
    (match jsParseFloat a with
     | none => runThrow WErr.invalidAmount
     | some p =>
       if p.1 * 1000 < 1001 * (p.2 : Int) then runThrow WErr.invalidAmount
       else withdrawFunds env opts)
  | none => withdrawFunds env opts

end WithdrawUSDC

namespace AddOrderlyKey

/-- Broker identifier default of the key-grant script. -/
def BROKER_ID : String := "woofi_pro"

/-- Verifying contract of the key-grant typed data. -/
def VERIFYING_CONTRACT : String := "0xCcCCccccCCCCcCCCCCCcCcCccCcCCCcCcccccccC"

/-- Errors thrown by the key-grant script; addKeyFailed carries the raw
serialized response body. -/
inductive KErr where
  | missingAppCredentials
  | missingAuthCredentials
  | missingWalletId
  | walletNotFound
  | missingWalletAddress
  | addKeyFailed (raw : String)
  deriving Repr, DecidableEq

/-- External effects of the key-grant flow: custody wallet lookup, local
keypair generation from the secure random source, custody typed-data
signing, the exchange POST, and the dotenv file write. -/
inductive KEv where
  | fetchWallet
  | keyGen
  | custodySign
  | exchangePost (body : JVal)
  | saveEnvFile

/-- Whether an event is the exchange POST. -/
def KEv.isExchangePost : KEv → Bool
  | KEv.exchangePost _ => true
  | _ => false

/-- Environment of one key-grant run.  The bodySuccess field records the
success flag of the exchange response payload; the script never reads it. -/
structure AddKeyEnv where
  appId : Option String
  appSecret : Option String
  authorizationId : Option String
  authorizationSecret : Option String
  walletFound : Bool
  resolvedAddress : Option String
  genOrderlyKey : String
  genPrivateKeyHex : String
  signature : String
  nowMs : Nat
  httpOk : Bool
  httpRaw : String
  bodySuccess : Bool

/-- Caller options of addOrderlyKey. -/
structure AddKeyOptions where
  walletId : Option String
  walletAddress : Option String
  chainId : Option Nat
  brokerId : Option String

/-- EIP-712 key-grant message of the script: timestamp and expiration are
stored as numbers (no toString call in the source), the key, scope and
broker as strings, chainId as a number. -/
def buildAddKeyMessage (brokerId : String) (chainIdNumber : Nat)
    (orderlyKey scope : String) (timestamp expiration : Nat) : JVal :=
  JVal.obj
    [("brokerId", JVal.str brokerId),
     ("chainId", JVal.num chainIdNumber),
     ("orderlyKey", JVal.str orderlyKey),
     ("scope", JVal.str scope),
     ("timestamp", JVal.num timestamp),
     ("expiration", JVal.num expiration)]

/-- Outer request body POSTed to the orderly_key endpoint: the very message
object that was signed, the signature and the user address. -/
def buildAddKeyRequestBody (message : JVal) (signature walletAddress : String) :
    JVal :=
  JVal.obj
    [("message", message),
     ("signature", JVal.str signature),
     ("userAddress", JVal.str walletAddress)]

/-- Context assembled before the custody signing call of the key-grant. -/
structure KCtx where
  walletAddress : String
  chainIdNumber : Nat
  brokerId : String
  orderlyKey : String
  privateKeyHex : String
  message : JVal

/-- Wallet address resolution of the key-grant script: the caller-supplied
address, or one custody lookup checking both the wallet object and its
address field. -/
def resolveAddress (env : AddKeyEnv) (opts : AddKeyOptions) :
    Run KErr KEv String :=
  if jsTruthyStr opts.walletAddress then runPure (opts.walletAddress.getD "")
  else
    runBind (runTell KEv.fetchWallet) (fun _ =>
      if !env.walletFound then runThrow KErr.walletNotFound
      else if jsTruthyStr env.resolvedAddress then
        runPure (env.resolvedAddress.getD "")
      else runThrow KErr.missingWalletAddress)

/-- Stage of addOrderlyKey before the custody signing call: validation,
address resolution, ed25519 keypair generation and message construction.
The expiration is the timestamp plus 365 days in milliseconds. -/
def addKeyPre (env : AddKeyEnv) (opts : AddKeyOptions) : Run KErr KEv KCtx :=
  if !(jsTruthyStr env.appId && jsTruthyStr env.appSecret) then
    runThrow KErr.missingAppCredentials
  else if !(jsTruthyStr env.authorizationId && jsTruthyStr env.authorizationSecret) then
    runThrow KErr.missingAuthCredentials
  else if !(jsTruthyStr opts.walletId) then runThrow KErr.missingWalletId
  else
    let chainIdNumber := opts.chainId.getD 80001
    let brokerId := opts.brokerId.getD BROKER_ID
    let scope := "read,trading"
    runBind (resolveAddress env opts) (fun walletAddress =>
      runBind (runTell KEv.keyGen) (fun _ =>
        let orderlyKey := env.genOrderlyKey
        let privateKeyHex := env.genPrivateKeyHex
        let timestamp := env.nowMs
        let expiration := timestamp + 365 * 24 * 60 * 60 * 1000
        runPure
          { walletAddress := walletAddress
            chainIdNumber := chainIdNumber
            brokerId := brokerId
            orderlyKey := orderlyKey
            privateKeyHex := privateKeyHex
            message := buildAddKeyMessage brokerId chainIdNumber orderlyKey
              scope timestamp expiration }))

/-- Result object returned by a successful addOrderlyKey call. -/
structure AddKeyResult where
  userAddress : String
  orderlyKey : String
  orderlyPrivateKeyHex : String
  deriving Repr, DecidableEq

/-- Stage of addOrderlyKey from the custody signing call onward: sign the
typed data, POST the body, throw with the raw body only when the HTTP
status is not ok — the success flag of the payload is never inspected —
then persist the generated key material to the dotenv file. -/
def addKeyMain (env : AddKeyEnv) (ctx : KCtx) : Run KErr KEv AddKeyResult :=
  runBind (runTell KEv.custodySign) (fun _ =>
    let signature := env.signature
    let requestBody := buildAddKeyRequestBody ctx.message signature ctx.walletAddress
    runBind (runTell (KEv.exchangePost requestBody)) (fun _ =>
      if !env.httpOk then runThrow (KErr.addKeyFailed env.httpRaw)
      else
        runBind (runTell KEv.saveEnvFile) (fun _ =>
          runPure
            { userAddress := ctx.walletAddress
              orderlyKey := ctx.orderlyKey
              orderlyPrivateKeyHex := ctx.privateKeyHex })))

/-- Embedding of addOrderlyKey from the key-grant script. -/
def addOrderlyKey (env : AddKeyEnv) (opts : AddKeyOptions) :
    Run KErr KEv AddKeyResult :=
  runBind (addKeyPre env opts) (addKeyMain env)

end AddOrderlyKey

namespace DepositUSDC

/-- Broker identifier default of the deposit script. -/
def BROKER_ID : String := "woofi_pro"

/-- USDC token address per chain identifier, from the deposit script. -/
def USDC_ADDRESSES : List (Nat × String) :=
  [(1, "0xa0b86991c6218b36c1d19d4a2e9eb0ce3606eb48"),
   (11155111, "0x1c7D4B196Cb0C7B01d743Fbc6116a902379C7238"),
   (42161, "0xaf88d065e77c8cC2239327C5EDb3A432268e5831"),
   (421614, "0x75faf114eafb1BDbe2F0316DF893fd58CE46AA4d"),
   (10, "0x0b2c639c533813f4aa9d7837caf62653d097ff85"),
   (11155420, "0x5fd84259d66Cd46123540766Be93DFE6D43130D7"),
   (8453, "0x833589fCD6eDb6E08f4c7C32D4f71b54bdA02913"),
   (84532, "0x036CbD53842c5426634e7929541eC2318f3dCF7e"),
   (5000, "0x09bc4e0d864854c6afb6eb9a9cdf58ac190d0df9"),
   (5003, "0xAcab8129E2cE587fD203FD770ec9ECAFA2C88080"),
   (56, "0x8AC76a51cc950d9822D68b83fE1Ad97B32Cd580d"),
   (97, "0x31873b5804bABE258d6ea008f55e08DD00b7d51E"),
   (137, "0x3c499c542cEF5E3811e1192ce70d8cC03d5c3359"),
   (80001, "0x41e94eb019c0762f9bfcf9fb1f3f082b1e1e2079")]

/-- Orderly vault contract address per chain identifier. -/
def ORDERLY_VAULT : List (Nat × String) :=
  [(1, "0x816f722424b49cf1275cc86da9840fbd5a6167e9"),
   (11155111, "0x0EaC556c0C2321BA25b9DC01e4e3c95aD5CDCd2f"),
   (42161, "0x816f722424B49Cf1275cc86DA9840Fbd5a6167e9"),
   (421614, "0x0EaC556c0C2321BA25b9DC01e4e3c95aD5CDCd2f"),
   (10, "0x816f722424b49cf1275cc86da9840fbd5a6167e9"),
   (11155420, "0xEfF2896077B6ff95379EfA89Ff903598190805EC"),
   (8453, "0x816f722424b49cf1275cc86da9840fbd5a6167e9"),
   (84532, "0xdc7348975aE9334DbdcB944DDa9163Ba8406a0ec"),
   (5000, "0x816f722424b49cf1275cc86da9840fbd5a6167e9"),
   (5003, "0xfb0E5f3D16758984E668A3d76f0963710E775503"),
   (56, "0x816f722424B49Cf1275cc86DA9840Fbd5a6167e9"),
   (97, "0xaf2036D5143219fa00dDd90e7A2dbF3E36dba050"),
   (137, "0x816f722424b49cf1275cc86da9840fbd5a6167e9"),
   (80001, "0x816f722424b49cf1275cc86da9840fbd5a6167e9")]

/-- RPC endpoint per chain identifier. -/
def RPC_URLS : List (Nat × String) :=
  [(1, "https://rpc.ankr.com/eth"),
   (11155111, "https://rpc.ankr.com/eth_sepolia"),
   (42161, "https://arb1.arbitrum.io/rpc"),
   (421614, "https://sepolia-rollup.arbitrum.io/rpc"),
   (10, "https://mainnet.optimism.io"),
   (11155420, "https://sepolia.optimism.io"),
   (8453, "https://mainnet.base.org"),
   (84532, "https://sepolia.base.org"),
   (5000, "https://rpc.mantle.xyz"),
   (5003, "https://rpc.sepolia.mantle.xyz"),
   (56, "https://bsc-dataseed.binance.org/"),
   (97, "https://data-seed-prebsc-1-s1.binance.org:8545/"),
   (137, "https://polygon-rpc.com"),
   (80001, "https://rpc.ankr.com/polygon_mumbai")]

/-- Errors thrown by the deposit script; each constructor corresponds to one
throw site. -/
inductive DErr where
  | missingAppCredentials
  | missingAuthCredentials
  | missingWalletId
  | missingAmount
  | walletNotFound
  | missingWalletAddress
  | usdcAddressNotConfigured
  | vaultNotConfigured
  | rpcNotConfigured
  | invalidAmountString
  | insufficientFunds
  | allowanceNotObserved
  deriving Repr, DecidableEq

/-- Deposit payload tuple passed to the vault contract. -/
structure DepositData where
  accountId : List Nat
  brokerHash : List Nat
  tokenHash : List Nat
  tokenAmount : Nat
  deriving Repr, DecidableEq

/-- External effects of the deposit flow.  Chain reads are the decimals,
balance and allowance calls; sendApprove and sendDeposit are the two custody
transaction-signing-and-broadcast calls, carrying their business payloads;
waitTx is the confirmation wait; sleepSecond is the one-second delay of the
allowance poll; getDepositFee is the vault fee view call. -/
inductive DEv where
  | fetchWallet
  | readDecimals
  | readBalance
  | readAllowance
  | sendApprove (spender : String) (amount : Nat)
  | waitTx
  | sleepSecond
  | getDepositFee (payload : DepositData)
  | sendDeposit (payload : DepositData) (value : Nat)
  deriving Repr, DecidableEq

/-- Whether an event is a custody transaction submission. -/
def DEv.isSendTx : DEv → Bool
  | DEv.sendApprove _ _ => true
  | DEv.sendDeposit _ _ => true
  | _ => false

/-- Whether an event is the approval submission. -/
def DEv.isSendApprove : DEv → Bool
  | DEv.sendApprove _ _ => true
  | _ => false

/-- Whether an event is the deposit submission. -/
def DEv.isSendDeposit : DEv → Bool
  | DEv.sendDeposit _ _ => true
  | _ => false

/-- Whether an event is the balance read. -/
def DEv.isReadBalance : DEv → Bool
  | DEv.readBalance => true
  | _ => false

/-- Whether an event is an allowance read. -/
def DEv.isReadAllowance : DEv → Bool
  | DEv.readAllowance => true
  | _ => false

/-- Environment of one deposit run.  allowanceAt gives the value returned by
the k-th allowance read of the run (read zero is the pre-approval check,
reads one onward are the verification poll), which lets the environment
model chain state changing under the poll. -/
structure DepositEnv where
  appId : Option String
  appSecret : Option String
  authorizationId : Option String
  authorizationSecret : Option String
  walletFound : Bool
  resolvedAddress : Option String
  keccak : List Nat → List Nat
  decimals : Nat
  balance : Nat
  allowanceAt : Nat → Nat
  depositFee : Nat
  approveTxHash : String
  depositTxHash : String
  depositBlock : Nat

/-- Caller options of depositUSDC. -/
structure DepositOptions where
  walletId : Option String
  walletAddress : Option String
  amount : Option String
  chainId : Option Nat
  brokerId : Option String

/-- Context assembled by the deposit flow before the balance check. -/
structure DCtx where
  walletAddress : String
  chainIdNumber : Nat
  brokerId : String
  amount : String
  usdcAddress : String
  vaultAddress : String
  rpcUrl : String
  amountWei : Nat

/-- Wallet address resolution of the deposit script. -/
def resolveAddress (env : DepositEnv) (opts : DepositOptions) :
    Run DErr DEv String :=
  if jsTruthyStr opts.walletAddress then runPure (opts.walletAddress.getD "")
  else
    runBind (runTell DEv.fetchWallet) (fun _ =>
      if !env.walletFound then runThrow DErr.walletNotFound
      else if jsTruthyStr env.resolvedAddress then
        runPure (env.resolvedAddress.getD "")
      else runThrow DErr.missingWalletAddress)

/-- Stage of depositUSDC before the balance check: validation, address
resolution, the three per-chain table lookups, the decimals read and the
scaling of the human amount to the token's smallest unit. -/
def depositPre (env : DepositEnv) (opts : DepositOptions) :
    Run DErr DEv DCtx :=
  if !(jsTruthyStr env.appId && jsTruthyStr env.appSecret) then
    runThrow DErr.missingAppCredentials
  else if !(jsTruthyStr env.authorizationId && jsTruthyStr env.authorizationSecret) then
    runThrow DErr.missingAuthCredentials
  else if !(jsTruthyStr opts.walletId) then runThrow DErr.missingWalletId
  else if !(jsTruthyStr opts.amount) then runThrow DErr.missingAmount
  else
    let chainIdNumber := opts.chainId.getD 80001
    let brokerId := opts.brokerId.getD BROKER_ID
    let amount := opts.amount.getD ""
    runBind (resolveAddress env opts) (fun walletAddress =>
      match USDC_ADDRESSES.lookup chainIdNumber with
      | none => runThrow DErr.usdcAddressNotConfigured
      | some usdcAddress =>
        match ORDERLY_VAULT.lookup chainIdNumber with
        | none => runThrow DErr.vaultNotConfigured
        | some vaultAddress =>
          match RPC_URLS.lookup chainIdNumber with
          | none => runThrow DErr.rpcNotConfigured
          | some rpcUrl =>
            runBind (runTell DEv.readDecimals) (fun _ =>
              match parseUnitsNat amount env.decimals with
              | none => runThrow DErr.invalidAmountString
              | some amountWei =>
                runPure
                  { walletAddress := walletAddress
                    chainIdNumber := chainIdNumber
                    brokerId := brokerId
                    amount := amount
                    usdcAddress := usdcAddress
                    vaultAddress := vaultAddress
                    rpcUrl := rpcUrl
                    amountWei := amountWei }))

/-- Allowance verification poll of the deposit script: up to ten allowance
reads, breaking as soon as the observed allowance covers the amount,
throwing on the tenth failed read, and sleeping one second between
consecutive reads.  The remaining parameter counts the iterations the
source loop has left (it starts at ten and the throw of the source fires
when the loop index reaches nine, that is when one iteration remains). -/
def verifyAllowanceLoop (allowanceAt : Nat → Nat) (amountWei : Nat) :
    Nat → Nat → Run DErr DEv Unit
  | _, 0 => runPure ()
  | readIdx, r + 1 =>
    runBind (runTell DEv.readAllowance) (fun _ =>
      if amountWei ≤ allowanceAt readIdx then runPure ()
      else if r = 0 then runThrow DErr.allowanceNotObserved
      else
        runBind (runTell DEv.sleepSecond) (fun _ =>
          verifyAllowanceLoop allowanceAt amountWei (readIdx + 1) r))

/-- Deposit payload construction of the deposit script: the derived account
identifier, the hashes of the broker identifier and of the USDC symbol, and
the scaled amount truncated to 128 bits with the all-ones bit mask. -/
def mkDepositData (env : DepositEnv) (ctx : DCtx) : DepositData :=
  { accountId := getAccountId env.keccak (hexAddrToNat ctx.walletAddress) ctx.brokerId
    brokerHash := env.keccak (utf8Encode ctx.brokerId)
    tokenHash := env.keccak (utf8Encode "USDC")
    tokenAmount := ctx.amountWei &&& (2 ^ 128 - 1) }

/-- Result object returned by a successful depositUSDC call. -/
structure DepResult where
  transactionHash : String
  blockNumber : Nat
  vaultAddress : String
  amount : String
  userAddress : String
  orderlyAccountId : List Nat
  deriving Repr, DecidableEq

/-- Stage of depositUSDC from the balance check onward: balance read and
check, allowance read, conditional approval with confirmation wait and
allowance poll, deposit payload construction, fee query, deposit submission
and confirmation wait. -/
def depositMain (env : DepositEnv) (ctx : DCtx) : Run DErr DEv DepResult :=
  runBind (runTell DEv.readBalance) (fun _ =>
    if env.balance < ctx.amountWei then runThrow DErr.insufficientFunds
    else
      runBind (runTell DEv.readAllowance) (fun _ =>
        runBind
          (if env.allowanceAt 0 < ctx.amountWei then
            runBind (runTell (DEv.sendApprove ctx.vaultAddress ctx.amountWei)) (fun _ =>
              runBind (runTell DEv.waitTx) (fun _ =>
                verifyAllowanceLoop env.allowanceAt ctx.amountWei 1 10))
          else runPure ())
          (fun _ =>
            let depositData := mkDepositData env ctx
            runBind (runTell (DEv.getDepositFee depositData)) (fun _ =>
              runBind (runTell (DEv.sendDeposit depositData env.depositFee)) (fun _ =>
                runBind (runTell DEv.waitTx) (fun _ =>
                  runPure
                    { transactionHash := env.depositTxHash
                      blockNumber := env.depositBlock
                      vaultAddress := ctx.vaultAddress
                      amount := ctx.amount
                      userAddress := ctx.walletAddress
                      orderlyAccountId := depositData.accountId }))))))

/-- Embedding of depositUSDC from the deposit script. -/
def depositUSDC (env : DepositEnv) (opts : DepositOptions) :
    Run DErr DEv DepResult :=
  runBind (depositPre env opts) (depositMain env)

end DepositUSDC

/-
Generic lemmas about Run sequencing and traces, shared by the claim
theorems below.
-/

theorem runBind_of_error {ε ev α β : Type} {x : Run ε ev α}
    {f : α → Run ε ev β} {e : ε} {tr : List ev} (h : x = (Except.error e, tr)) :
    runBind x f = (Except.error e, tr) := by
  subst h; rfl

theorem runBind_of_ok {ε ev α β : Type} {x : Run ε ev α}
    {f : α → Run ε ev β} {a : α} {tr : List ev} (h : x = (Except.ok a, tr)) :
    runBind x f = ((f a).1, tr ++ (f a).2) := by
  subst h; rfl

theorem runBind_inv {ε ev α β : Type} {x : Run ε ev α} {f : α → Run ε ev β}
    {r : Except ε β} {tr : List ev} (h : runBind x f = (r, tr)) :
    (∃ e, x = (Except.error e, tr) ∧ r = Except.error e) ∨
    (∃ a tr1, x = (Except.ok a, tr1) ∧ (f a).1 = r ∧ tr = tr1 ++ (f a).2) := by
  rcases x with ⟨rx, trx⟩
  cases rx with
  | error e =>
    left
    simp only [runBind] at h
    rw [Prod.mk.injEq] at h
    exact ⟨e, by rw [h.2], h.1.symm⟩
  | ok a =>
    right
    simp only [runBind] at h
    rw [Prod.mk.injEq] at h
    exact ⟨a, trx, rfl, h.1, h.2.symm⟩

theorem any_take_of_any_false {α : Type} {l : List α} {p : α → Bool}
    (h : l.any p = false) (n : Nat) : (l.take n).any p = false := by
  rw [List.any_eq_false] at h ⊢
  exact fun x hx => h x (List.take_subset n l hx)

theorem filter_eq_nil_of_any_false {α : Type} {l : List α} {p : α → Bool}
    (h : l.any p = false) : l.filter p = [] := by
  rw [List.any_eq_false] at h
  rw [List.filter_eq_nil_iff]
  exact h

theorem not_mem_of_any_false {α : Type} {l : List α} {p : α → Bool}
    (h : l.any p = false) {x : α} (hx : x ∈ l) : p x = false := by
  rw [List.any_eq_false] at h
  simpa using h x hx

/-- Precedence extraction for traces: when every element of the prefix fails
the predicate p and the marker c satisfies q, any take of the combined trace
that contains a p-element also contains a q-element. -/
theorem take_any_after {α : Type} {A B : List α} {c : α} {p q : α → Bool}
    (hA : A.any p = false) (hc : q c = true) (n : Nat)
    (h : ((A ++ c :: B).take n).any p = true) :
    ((A ++ c :: B).take n).any q = true := by
  by_cases hn : n ≤ A.length
  · exfalso
    rw [List.take_append_of_le_length hn] at h
    have := any_take_of_any_false hA n
    rw [this] at h
    exact Bool.false_ne_true h
  · push_neg at hn
    rw [List.any_eq_true]
    refine ⟨c, ?_, hc⟩
    rw [List.take_append_eq_append_take]
    apply List.mem_append_right
    have hm : n - A.length = (n - A.length - 1) + 1 := by omega
    rw [hm, List.take_succ_cons]
    exact List.mem_cons_self c _

theorem runBind_fst_ok_inv {ε ev α β : Type} {x : Run ε ev α}
    {f : α → Run ε ev β} {c : β} (h : (runBind x f).1 = Except.ok c) :
    ∃ a, x.1 = Except.ok a ∧ (f a).1 = Except.ok c := by
  rcases x with ⟨rx, trx⟩
  cases rx with
  | error e => simp [runBind] at h
  | ok a => exact ⟨a, rfl, h⟩

namespace WithdrawUSDC

theorem withdrawPre_ok_spec {env : WithdrawEnv} {opts : WithdrawOptions}
    {wctx : WCtx} {tr : List WEv}
    (h : withdrawPre env opts = (Except.ok wctx, tr)) :
    wctx.token = jsToUpper (opts.token.getD "USDC")
    ∧ wctx.amount = opts.amount.getD ""
    ∧ parseUnitsNat wctx.amount (tokenDecimalsOrDefault wctx.token) =
        some wctx.amountWei
    ∧ wctx.chainIdNumber = opts.chainId.getD 80001
    ∧ wctx.message = buildWithdrawMessage BROKER_ID wctx.chainIdNumber
        wctx.walletAddress wctx.token wctx.amountWei wctx.withdrawNonce
        env.nowMs := by
  have hfst : (withdrawPre env opts).1 = Except.ok wctx := by rw [h]
  unfold withdrawPre at hfst
  split at hfst
  · simp [runThrow] at hfst
  split at hfst
  · simp [runThrow] at hfst
  split at hfst
  · simp [runThrow] at hfst
  split at hfst
  · simp [runThrow] at hfst
  split at hfst
  · simp [runThrow] at hfst
  split at hfst
  · simp [runThrow] at hfst
  obtain ⟨wa, hwa, hcont⟩ := runBind_fst_ok_inv hfst
  obtain ⟨nOpt, hn, hcont2⟩ := runBind_fst_ok_inv hcont
  dsimp only at hcont2
  rcases hp : parseUnitsNat (opts.amount.getD "")
      (tokenDecimalsOrDefault (jsToUpper (opts.token.getD "USDC"))) with _ | w
  · rw [hp] at hcont2
    simp [runThrow] at hcont2
  · rw [hp] at hcont2
    cases nOpt with
    | none => simp [runThrow] at hcont2
    | some nonce =>
      simp only [runPure] at hcont2
      have := (Except.ok.injEq _ _).mp hcont2
      subst this
      refine ⟨rfl, rfl, ?_, rfl, rfl⟩
      simpa using hp

end WithdrawUSDC

namespace DepositUSDC

theorem depositPre_ok_spec {env : DepositEnv} {opts : DepositOptions}
    {ctx : DCtx} {tr : List DEv}
    (h : depositPre env opts = (Except.ok ctx, tr)) :
    ctx.amount = opts.amount.getD ""
    ∧ parseUnitsNat ctx.amount env.decimals = some ctx.amountWei
    ∧ ctx.brokerId = opts.brokerId.getD BROKER_ID := by
  have hfst : (depositPre env opts).1 = Except.ok ctx := by rw [h]
  unfold depositPre at hfst
  split at hfst
  · simp [runThrow] at hfst
  split at hfst
  · simp [runThrow] at hfst
  split at hfst
  · simp [runThrow] at hfst
  split at hfst
  · simp [runThrow] at hfst
  obtain ⟨wa, hwa, hcont⟩ := runBind_fst_ok_inv hfst
  try dsimp only at hcont
  rcases hu : USDC_ADDRESSES.lookup (opts.chainId.getD 80001) with _ | usdc
  · simp only [hu] at hcont
    simp [runThrow] at hcont
  simp only [hu] at hcont
  rcases hv : ORDERLY_VAULT.lookup (opts.chainId.getD 80001) with _ | vault
  · simp only [hv] at hcont
    simp [runThrow] at hcont
  simp only [hv] at hcont
  rcases hr : RPC_URLS.lookup (opts.chainId.getD 80001) with _ | rpc
  · simp only [hr] at hcont
    simp [runThrow] at hcont
  simp only [hr] at hcont
  obtain ⟨u, hu2, hcont2⟩ := runBind_fst_ok_inv hcont
  try dsimp only at hcont2
  rcases hp : parseUnitsNat (opts.amount.getD "") env.decimals with _ | w
  · simp only [hp] at hcont2
    simp [runThrow] at hcont2
  · simp only [hp] at hcont2
    simp only [runPure] at hcont2
    have := (Except.ok.injEq _ _).mp hcont2
    subst this
    exact ⟨rfl, by simpa using hp, rfl⟩

end DepositUSDC

namespace DepositUSDC

theorem resolveAddress_events {env : DepositEnv} {opts : DepositOptions}
    {e : DEv} (he : e ∈ (resolveAddress env opts).2) : e = DEv.fetchWallet := by
  unfold resolveAddress at he
  split at he
  · simp [runPure] at he
  · rw [runBind_tell] at he
    rcases List.mem_cons.mp he with h1 | h2
    · exact h1
    · split at h2 <;> simp [runPure, runThrow] at h2
      split at h2 <;> simp [runPure, runThrow] at h2

theorem depositPre_events {env : DepositEnv} {opts : DepositOptions} {e : DEv}
    (he : e ∈ (depositPre env opts).2) :
    e = DEv.fetchWallet ∨ e = DEv.readDecimals := by
  unfold depositPre at he
  split at he
  · simp [runThrow] at he
  split at he
  · simp [runThrow] at he
  split at he
  · simp [runThrow] at he
  split at he
  · simp [runThrow] at he
  rcases hres : resolveAddress env opts with ⟨rr, rtr⟩
  cases rr with
  | error err =>
    rw [runBind_of_error hres] at he
    exact Or.inl (resolveAddress_events (by rw [hres]; exact he))
  | ok wa =>
    rw [runBind_of_ok hres] at he
    rcases List.mem_append.mp he with h1 | h2
    · exact Or.inl (resolveAddress_events (by rw [hres]; exact h1))
    · try dsimp only at h2
      rcases hu : USDC_ADDRESSES.lookup (opts.chainId.getD 80001) with _ | u
      · simp only [hu] at h2
        simp [runThrow] at h2
      simp only [hu] at h2
      rcases hv : ORDERLY_VAULT.lookup (opts.chainId.getD 80001) with _ | v
      · simp only [hv] at h2
        simp [runThrow] at h2
      simp only [hv] at h2
      rcases hr : RPC_URLS.lookup (opts.chainId.getD 80001) with _ | r
      · simp only [hr] at h2
        simp [runThrow] at h2
      simp only [hr] at h2
      rw [runBind_tell] at h2
      rcases List.mem_cons.mp h2 with h3 | h4
      · exact Or.inr h3
      · split at h4 <;> simp [runThrow, runPure] at h4

theorem depositPre_any_false (env : DepositEnv) (opts : DepositOptions)
    (p : DEv → Bool) (h1 : p DEv.fetchWallet = false)
    (h2 : p DEv.readDecimals = false) :
    (depositPre env opts).2.any p = false := by
  rw [List.any_eq_false]
  intro x hx
  rcases depositPre_events hx with h | h <;> subst h <;> simp [h1, h2]

theorem verifyAllowanceLoop_events {f : Nat → Nat} {w : Nat} :
    ∀ {r idx : Nat} {e : DEv},
    e ∈ (verifyAllowanceLoop f w idx r).2 →
    e = DEv.readAllowance ∨ e = DEv.sleepSecond := by
  intro r
  induction r with
  | zero => intro idx e he; simp [verifyAllowanceLoop, runPure] at he
  | succ r ih =>
    intro idx e he
    rw [verifyAllowanceLoop, runBind_tell] at he
    rcases List.mem_cons.mp he with h1 | h2
    · exact Or.inl h1
    · split at h2
      · simp [runPure] at h2
      · split at h2
        · simp [runThrow] at h2
        · rw [runBind_tell] at h2
          rcases List.mem_cons.mp h2 with h3 | h4
          · exact Or.inr h3
          · exact ih h4

theorem verifyAllowanceLoop_any_false (f : Nat → Nat) (w idx r : Nat)
    (p : DEv → Bool) (h1 : p DEv.readAllowance = false)
    (h2 : p DEv.sleepSecond = false) :
    (verifyAllowanceLoop f w idx r).2.any p = false := by
  rw [List.any_eq_false]
  intro x hx
  rcases verifyAllowanceLoop_events hx with h | h <;> subst h <;> simp [h1, h2]

theorem verifyAllowanceLoop_reads_le (f : Nat → Nat) (w : Nat) :
    ∀ (r idx : Nat),
    (verifyAllowanceLoop f w idx r).2.countP DEv.isReadAllowance ≤ r := by
  intro r
  induction r with
  | zero => intro idx; simp [verifyAllowanceLoop, runPure]
  | succ r ih =>
    intro idx
    rw [verifyAllowanceLoop, runBind_tell]
    split
    · simp [runPure, List.countP_cons, DEv.isReadAllowance]
    · split
      · simp [runThrow, List.countP_cons, DEv.isReadAllowance]
      · rw [runBind_tell]
        simp only [List.countP_cons]
        have := ih (idx + 1)
        simp [DEv.isReadAllowance]
        omega

end DepositUSDC

namespace DepositUSDC

theorem verifyAllowanceLoop_success {f : Nat → Nat} {w : Nat} :
    ∀ {r k idx : Nat}, k < r → (∀ j, j < k → f (idx + j) < w) →
    w ≤ f (idx + k) →
    (verifyAllowanceLoop f w idx r).1 = Except.ok ()
    ∧ (verifyAllowanceLoop f w idx r).2.countP DEv.isReadAllowance = k + 1 := by
  intro r
  induction r with
  | zero => intro k idx hk; omega
  | succ r ih =>
    intro k idx hk hmin hw
    cases k with
    | zero =>
      rw [Nat.add_zero] at hw
      rw [verifyAllowanceLoop, runBind_tell]
      rw [if_pos hw]
      simp [runPure, List.countP_cons, DEv.isReadAllowance]
    | succ k =>
      have h0 : f (idx + 0) < w := hmin 0 (Nat.succ_pos k)
      rw [Nat.add_zero] at h0
      have hnot : ¬ w ≤ f idx := by omega
      have hr0 : r ≠ 0 := by omega
      rw [verifyAllowanceLoop, runBind_tell, if_neg hnot, if_neg hr0,
        runBind_tell]
      have hmin2 : ∀ j, j < k → f (idx + 1 + j) < w := by
        intro j hj
        have := hmin (j + 1) (by omega)
        rw [show idx + (j + 1) = idx + 1 + j by omega] at this
        exact this
      have hw2 : w ≤ f (idx + 1 + k) := by
        rw [show idx + 1 + k = idx + (k + 1) by omega]
        exact hw
      obtain ⟨ihr, ihc⟩ := ih (by omega) hmin2 hw2
      constructor
      · exact ihr
      · simp [List.countP_cons, DEv.isReadAllowance, ihc]

theorem verifyAllowanceLoop_exhaust {f : Nat → Nat} {w : Nat} :
    ∀ {r idx : Nat}, 1 ≤ r → (∀ k, k < r → f (idx + k) < w) →
    (verifyAllowanceLoop f w idx r).1 =
      Except.error DErr.allowanceNotObserved := by
  intro r
  induction r with
  | zero => intro idx h; omega
  | succ r ih =>
    intro idx _ hall
    have h0 : f (idx + 0) < w := hall 0 (Nat.succ_pos r)
    rw [Nat.add_zero] at h0
    have hnot : ¬ w ≤ f idx := by omega
    cases Nat.eq_zero_or_pos r with
    | inl hr =>
      subst hr
      rw [verifyAllowanceLoop, runBind_tell, if_neg hnot]
      simp [runThrow]
    | inr hr =>
      have hr0 : r ≠ 0 := by omega
      rw [verifyAllowanceLoop, runBind_tell, if_neg hnot, if_neg hr0,
        runBind_tell]
      apply ih hr
      intro k hk
      have := hall (k + 1) (by omega)
      rw [show idx + (k + 1) = idx + 1 + k by omega] at this
      exact this

end DepositUSDC

namespace DepositUSDC

theorem depositMain_insufficient {env : DepositEnv} {ctx : DCtx}
    (h : env.balance < ctx.amountWei) :
    depositMain env ctx = (Except.error DErr.insufficientFunds, [DEv.readBalance]) := by
  unfold depositMain
  rw [runBind_tell, if_pos h]
  simp [runThrow]

theorem depositMain_skip {env : DepositEnv} {ctx : DCtx}
    (h1 : ¬ env.balance < ctx.amountWei)
    (h2 : ¬ env.allowanceAt 0 < ctx.amountWei) :
    depositMain env ctx =
      (Except.ok
        { transactionHash := env.depositTxHash
          blockNumber := env.depositBlock
          vaultAddress := ctx.vaultAddress
          amount := ctx.amount
          userAddress := ctx.walletAddress
          orderlyAccountId := (mkDepositData env ctx).accountId },
       [DEv.readBalance, DEv.readAllowance,
        DEv.getDepositFee (mkDepositData env ctx),
        DEv.sendDeposit (mkDepositData env ctx) env.depositFee,
        DEv.waitTx]) := by
  unfold depositMain
  rw [runBind_tell, if_neg h1, runBind_tell]
  simp [if_neg h2, runBind, runTell, runPure]

theorem depositMain_approve_ok {env : DepositEnv} {ctx : DCtx}
    (h1 : ¬ env.balance < ctx.amountWei)
    (h2 : env.allowanceAt 0 < ctx.amountWei) {ltr : List DEv}
    (hloop : verifyAllowanceLoop env.allowanceAt ctx.amountWei 1 10 =
      (Except.ok (), ltr)) :
    depositMain env ctx =
      (Except.ok
        { transactionHash := env.depositTxHash
          blockNumber := env.depositBlock
          vaultAddress := ctx.vaultAddress
          amount := ctx.amount
          userAddress := ctx.walletAddress
          orderlyAccountId := (mkDepositData env ctx).accountId },
       DEv.readBalance :: DEv.readAllowance ::
        DEv.sendApprove ctx.vaultAddress ctx.amountWei :: DEv.waitTx ::
        (ltr ++
          [DEv.getDepositFee (mkDepositData env ctx),
           DEv.sendDeposit (mkDepositData env ctx) env.depositFee,
           DEv.waitTx])) := by
  unfold depositMain
  rw [runBind_tell, if_neg h1, runBind_tell]
  simp [if_pos h2, runBind, runTell, runPure, hloop]

theorem depositMain_approve_fail {env : DepositEnv} {ctx : DCtx}
    (h1 : ¬ env.balance < ctx.amountWei)
    (h2 : env.allowanceAt 0 < ctx.amountWei) {er : DErr} {ltr : List DEv}
    (hloop : verifyAllowanceLoop env.allowanceAt ctx.amountWei 1 10 =
      (Except.error er, ltr)) :
    depositMain env ctx =
      (Except.error er,
       DEv.readBalance :: DEv.readAllowance ::
        DEv.sendApprove ctx.vaultAddress ctx.amountWei :: DEv.waitTx :: ltr) := by
  unfold depositMain
  rw [runBind_tell, if_neg h1, runBind_tell]
  simp [if_pos h2, runBind, runTell, runPure, hloop]

end DepositUSDC

theorem jsParseFloat_den_pos {s : String} {p : Int × Nat}
    (h : jsParseFloat s = some p) : 0 < p.2 := by
  unfold jsParseFloat at h
  dsimp only at h
  split at h
  · exact absurd h (by simp)
  · simp only [Option.some.injEq] at h
    subst h
    positivity

theorem frac_lt_protocol_min_iff {p : Int × Nat} (h : 0 < p.2) :
    fracToRat p < 1001 / 1000 ↔ p.1 * 1000 < 1001 * (p.2 : Int) := by
  unfold fracToRat
  rw [div_lt_div_iff₀ (by exact_mod_cast h) (by norm_num)]
  constructor
  · intro hlt
    exact_mod_cast hlt
  · intro hlt
    exact_mod_cast hlt

namespace DepositUSDC

theorem depositMain_trace_cons (env : DepositEnv) (ctx : DCtx) :
    ∃ rest, (depositMain env ctx).2 = DEv.readBalance :: rest := by
  unfold depositMain
  rw [runBind_tell]
  exact ⟨_, rfl⟩

/-- Sample run environment used to exercise the deposit theorems on
concrete inputs: wallet funded with zero token units. -/
def depositEnvSample : DepositEnv :=
  { appId := some "app", appSecret := some "secret"
    authorizationId := some "auth", authorizationSecret := some "authsec"
    walletFound := true, resolvedAddress := some "0xab"
    keccak := fun _ => [], decimals := 6, balance := 0
    allowanceAt := fun _ => 0, depositFee := 5
    approveTxHash := "0xaaa", depositTxHash := "0xddd", depositBlock := 3 }

/-- Sample caller options: deposit one hundred USDC on the default chain. -/
def depositOptsSample : DepositOptions :=
  { walletId := some "wal", walletAddress := some "0xab"
    amount := some "100", chainId := none, brokerId := none }

/-- Context the pre-stage assembles for the sample options. -/
def depositCtxSample : DCtx :=
  { walletAddress := "0xab", chainIdNumber := 80001
    brokerId := "woofi_pro", amount := "100"
    usdcAddress := "0x41e94eb019c0762f9bfcf9fb1f3f082b1e1e2079"
    vaultAddress := "0x816f722424b49cf1275cc86da9840fbd5a6167e9"
    rpcUrl := "https://rpc.ankr.com/polygon_mumbai"
    amountWei := 100000000 }

/-- Sample environment with a funded wallet and a standing allowance. -/
def depositEnvFunded : DepositEnv :=
  { depositEnvSample with balance := 200000000
                          allowanceAt := fun _ => 200000000 }

/-- Sample environment with a funded wallet whose allowance never becomes
visible to the poll. -/
def depositEnvStuck : DepositEnv :=
  { depositEnvSample with balance := 200000000
                          allowanceAt := fun _ => 0 }

end DepositUSDC

/-- C3: in every deposit flow in which the on-chain token balance is
strictly below the requested smallest-unit amount, depositUSDC fails with
the insufficient-funds error and never submits a custody transaction
(neither an approval nor a deposit); and in every execution, any prefix of
the effect trace that contains a custody transaction submission already
contains the balance read, so the balance check strictly precedes every
signature request. -/
theorem depositUSDC_balance_check_precedes_signing :
    ∀ (env : DepositUSDC.DepositEnv) (opts : DepositUSDC.DepositOptions),
      (∀ (ctx : DepositUSDC.DCtx) (tr0 : List DepositUSDC.DEv),
        DepositUSDC.depositPre env opts = (Except.ok ctx, tr0) →
        env.balance < ctx.amountWei →
        (DepositUSDC.depositUSDC env opts).1 =
          Except.error DepositUSDC.DErr.insufficientFunds
        ∧ (DepositUSDC.depositUSDC env opts).2.any
            DepositUSDC.DEv.isSendTx = false)
      ∧ ∀ n : Nat,
          ((DepositUSDC.depositUSDC env opts).2.take n).any
            DepositUSDC.DEv.isSendTx = true →
          ((DepositUSDC.depositUSDC env opts).2.take n).any
            DepositUSDC.DEv.isReadBalance = true := by
  intro env opts
  constructor
  · intro ctx tr0 hpre hbal
    have hmain := DepositUSDC.depositMain_insufficient hbal
    have hflow : DepositUSDC.depositUSDC env opts =
        (Except.error DepositUSDC.DErr.insufficientFunds,
         tr0 ++ [DepositUSDC.DEv.readBalance]) := by
      unfold DepositUSDC.depositUSDC
      rw [runBind_of_ok hpre, hmain]
    have hpretr : tr0.any DepositUSDC.DEv.isSendTx = false := by
      have hx := DepositUSDC.depositPre_any_false env opts
        DepositUSDC.DEv.isSendTx rfl rfl
      rw [hpre] at hx
      exact hx
    rw [hflow]
    exact ⟨rfl, by rw [List.any_append, hpretr]; rfl⟩
  · intro n h
    rcases hpre : DepositUSDC.depositPre env opts with ⟨rr, tr0⟩
    have hpretr : tr0.any DepositUSDC.DEv.isSendTx = false := by
      have hx := DepositUSDC.depositPre_any_false env opts
        DepositUSDC.DEv.isSendTx rfl rfl
      rw [hpre] at hx
      exact hx
    cases rr with
    | error e =>
      have hflow : DepositUSDC.depositUSDC env opts = (Except.error e, tr0) := by
        unfold DepositUSDC.depositUSDC
        exact runBind_of_error hpre
      rw [hflow] at h
      rw [any_take_of_any_false hpretr n] at h
      exact absurd h (by simp)
    | ok ctx =>
      obtain ⟨rest, hrest⟩ := DepositUSDC.depositMain_trace_cons env ctx
      have hflow : (DepositUSDC.depositUSDC env opts).2 =
          tr0 ++ DepositUSDC.DEv.readBalance :: rest := by
        unfold DepositUSDC.depositUSDC
        rw [runBind_of_ok hpre]
        show tr0 ++ (DepositUSDC.depositMain env ctx).2 = _
        rw [hrest]
      rw [hflow] at h ⊢
      exact take_any_after hpretr rfl n h

/-- Witness for C3 at a concrete run: zero balance, requested deposit of one
hundred USDC. -/
theorem depositUSDC_balance_check_precedes_signing_witness :
    (DepositUSDC.depositUSDC DepositUSDC.depositEnvSample
        DepositUSDC.depositOptsSample).1 =
      Except.error DepositUSDC.DErr.insufficientFunds
    ∧ (DepositUSDC.depositUSDC DepositUSDC.depositEnvSample
        DepositUSDC.depositOptsSample).2.any DepositUSDC.DEv.isSendTx = false :=
  (depositUSDC_balance_check_precedes_signing DepositUSDC.depositEnvSample
    DepositUSDC.depositOptsSample).1 DepositUSDC.depositCtxSample
    [DepositUSDC.DEv.readDecimals] rfl (by decide)

/-- C4: in every deposit flow that passes the balance check, when the
current allowance already covers the requested smallest-unit amount the
orchestrator submits no approval and broadcasts exactly one custody
transaction, the deposit; and when the allowance is insufficient, the single
approval it submits approves exactly the requested amount for the vault,
not an unlimited allowance. -/
theorem depositUSDC_conditional_exact_approval :
    ∀ (env : DepositUSDC.DepositEnv) (opts : DepositUSDC.DepositOptions)
      (ctx : DepositUSDC.DCtx) (tr0 : List DepositUSDC.DEv),
      DepositUSDC.depositPre env opts = (Except.ok ctx, tr0) →
      ¬ env.balance < ctx.amountWei →
      ((¬ env.allowanceAt 0 < ctx.amountWei →
        (DepositUSDC.depositUSDC env opts).2.filter DepositUSDC.DEv.isSendTx =
          [DepositUSDC.DEv.sendDeposit (DepositUSDC.mkDepositData env ctx)
            env.depositFee])
      ∧ (env.allowanceAt 0 < ctx.amountWei →
        (DepositUSDC.depositUSDC env opts).2.filter
            DepositUSDC.DEv.isSendApprove =
          [DepositUSDC.DEv.sendApprove ctx.vaultAddress ctx.amountWei])) := by
  intro env opts ctx tr0 hpre hbal
  have hpreF : tr0.filter DepositUSDC.DEv.isSendTx = [] := by
    apply filter_eq_nil_of_any_false
    have hx := DepositUSDC.depositPre_any_false env opts
      DepositUSDC.DEv.isSendTx rfl rfl
    rw [hpre] at hx
    exact hx
  have hpreFA : tr0.filter DepositUSDC.DEv.isSendApprove = [] := by
    apply filter_eq_nil_of_any_false
    have hx := DepositUSDC.depositPre_any_false env opts
      DepositUSDC.DEv.isSendApprove rfl rfl
    rw [hpre] at hx
    exact hx
  constructor
  · intro hall
    have hmain := DepositUSDC.depositMain_skip hbal hall
    have hflow2 : (DepositUSDC.depositUSDC env opts).2 =
        tr0 ++ [DepositUSDC.DEv.readBalance, DepositUSDC.DEv.readAllowance,
          DepositUSDC.DEv.getDepositFee (DepositUSDC.mkDepositData env ctx),
          DepositUSDC.DEv.sendDeposit (DepositUSDC.mkDepositData env ctx)
            env.depositFee,
          DepositUSDC.DEv.waitTx] := by
      unfold DepositUSDC.depositUSDC
      rw [runBind_of_ok hpre]
      show tr0 ++ (DepositUSDC.depositMain env ctx).2 = _
      rw [hmain]
    rw [hflow2, List.filter_append, hpreF]
    simp [List.filter, DepositUSDC.DEv.isSendTx]
  · intro hall
    rcases hloop : DepositUSDC.verifyAllowanceLoop env.allowanceAt
        ctx.amountWei 1 10 with ⟨lr, ltr⟩
    have hloopF : ltr.filter DepositUSDC.DEv.isSendApprove = [] := by
      apply filter_eq_nil_of_any_false
      have hx := DepositUSDC.verifyAllowanceLoop_any_false env.allowanceAt
        ctx.amountWei 1 10 DepositUSDC.DEv.isSendApprove rfl rfl
      rw [hloop] at hx
      exact hx
    cases lr with
    | ok u =>
      cases u
      have hmain := DepositUSDC.depositMain_approve_ok hbal hall hloop
      have hflow2 : (DepositUSDC.depositUSDC env opts).2 =
          tr0 ++ (DepositUSDC.DEv.readBalance :: DepositUSDC.DEv.readAllowance ::
            DepositUSDC.DEv.sendApprove ctx.vaultAddress ctx.amountWei ::
            DepositUSDC.DEv.waitTx ::
            (ltr ++
              [DepositUSDC.DEv.getDepositFee (DepositUSDC.mkDepositData env ctx),
               DepositUSDC.DEv.sendDeposit (DepositUSDC.mkDepositData env ctx)
                 env.depositFee,
               DepositUSDC.DEv.waitTx])) := by
        unfold DepositUSDC.depositUSDC
        rw [runBind_of_ok hpre]
        show tr0 ++ (DepositUSDC.depositMain env ctx).2 = _
        rw [hmain]
      rw [hflow2, List.filter_append, hpreFA]
      simp [List.filter_append, List.filter, hloopF, DepositUSDC.DEv.isSendApprove]
    | error er =>
      have hmain := DepositUSDC.depositMain_approve_fail hbal hall hloop
      have hflow2 : (DepositUSDC.depositUSDC env opts).2 =
          tr0 ++ (DepositUSDC.DEv.readBalance :: DepositUSDC.DEv.readAllowance ::
            DepositUSDC.DEv.sendApprove ctx.vaultAddress ctx.amountWei ::
            DepositUSDC.DEv.waitTx :: ltr) := by
        unfold DepositUSDC.depositUSDC
        rw [runBind_of_ok hpre]
        show tr0 ++ (DepositUSDC.depositMain env ctx).2 = _
        rw [hmain]
      rw [hflow2, List.filter_append, hpreFA]
      simp [List.filter_append, List.filter, hloopF, DepositUSDC.DEv.isSendApprove]

/-- Witness for C4 at a concrete run: funded wallet with a standing
allowance covering the amount, so the only custody transaction broadcast is
the deposit itself. -/
theorem depositUSDC_conditional_exact_approval_witness :
    (DepositUSDC.depositUSDC DepositUSDC.depositEnvFunded
        DepositUSDC.depositOptsSample).2.filter DepositUSDC.DEv.isSendTx =
      [DepositUSDC.DEv.sendDeposit
        (DepositUSDC.mkDepositData DepositUSDC.depositEnvFunded
          DepositUSDC.depositCtxSample)
        DepositUSDC.depositEnvFunded.depositFee] :=
  (depositUSDC_conditional_exact_approval DepositUSDC.depositEnvFunded
    DepositUSDC.depositOptsSample DepositUSDC.depositCtxSample
    [DepositUSDC.DEv.readDecimals] rfl (by decide)).1 (by decide)

/-- C6: the post-approval allowance verification is a bounded poll: at most
ten allowance reads separated by one-second sleeps, exiting as soon as an
observed allowance covers the amount (after exactly one read more than the
number of failed observations), failing with the allowance-verification
error when all ten reads fall short, in which case the flow reports that
error and never submits the deposit; the loop is a total function, so it
always terminates. -/
theorem depositUSDC_allowance_poll_bounded :
    (∀ (f : Nat → Nat) (w idx : Nat),
      (DepositUSDC.verifyAllowanceLoop f w idx 10).2.countP
        DepositUSDC.DEv.isReadAllowance ≤ 10)
    ∧ (∀ (f : Nat → Nat) (w k : Nat), k < 10 →
        (∀ j, j < k → f (1 + j) < w) → w ≤ f (1 + k) →
        (DepositUSDC.verifyAllowanceLoop f w 1 10).1 = Except.ok ()
        ∧ (DepositUSDC.verifyAllowanceLoop f w 1 10).2.countP
            DepositUSDC.DEv.isReadAllowance = k + 1)
    ∧ (∀ (f : Nat → Nat) (w : Nat), (∀ k, k < 10 → f (1 + k) < w) →
        (DepositUSDC.verifyAllowanceLoop f w 1 10).1 =
          Except.error DepositUSDC.DErr.allowanceNotObserved)
    ∧ ∀ (env : DepositUSDC.DepositEnv) (opts : DepositUSDC.DepositOptions)
        (ctx : DepositUSDC.DCtx) (tr0 : List DepositUSDC.DEv),
        DepositUSDC.depositPre env opts = (Except.ok ctx, tr0) →
        ¬ env.balance < ctx.amountWei →
        env.allowanceAt 0 < ctx.amountWei →
        (∀ k, k < 10 → env.allowanceAt (1 + k) < ctx.amountWei) →
        (DepositUSDC.depositUSDC env opts).1 =
          Except.error DepositUSDC.DErr.allowanceNotObserved
        ∧ (DepositUSDC.depositUSDC env opts).2.any
            DepositUSDC.DEv.isSendDeposit = false := by
  refine ⟨fun f w idx => DepositUSDC.verifyAllowanceLoop_reads_le f w 10 idx,
    ?_, ?_, ?_⟩
  · intro f w k hk hmin hw
    exact DepositUSDC.verifyAllowanceLoop_success hk hmin hw
  · intro f w hall
    exact DepositUSDC.verifyAllowanceLoop_exhaust (by omega) hall
  · intro env opts ctx tr0 hpre hbal hall0 hall
    rcases hloop : DepositUSDC.verifyAllowanceLoop env.allowanceAt
        ctx.amountWei 1 10 with ⟨lr, ltr⟩
    have hfst : (DepositUSDC.verifyAllowanceLoop env.allowanceAt
        ctx.amountWei 1 10).1 =
        Except.error DepositUSDC.DErr.allowanceNotObserved :=
      DepositUSDC.verifyAllowanceLoop_exhaust (by omega) hall
    rw [hloop] at hfst
    subst hfst
    have hmain := DepositUSDC.depositMain_approve_fail hbal hall0 hloop
    have hflow : DepositUSDC.depositUSDC env opts =
        (Except.error DepositUSDC.DErr.allowanceNotObserved,
         tr0 ++ (DepositUSDC.DEv.readBalance :: DepositUSDC.DEv.readAllowance ::
           DepositUSDC.DEv.sendApprove ctx.vaultAddress ctx.amountWei ::
           DepositUSDC.DEv.waitTx :: ltr)) := by
      unfold DepositUSDC.depositUSDC
      rw [runBind_of_ok hpre, hmain]
    have hpretr : tr0.any DepositUSDC.DEv.isSendDeposit = false := by
      have hx := DepositUSDC.depositPre_any_false env opts
        DepositUSDC.DEv.isSendDeposit rfl rfl
      rw [hpre] at hx
      exact hx
    have hlooptr : ltr.any DepositUSDC.DEv.isSendDeposit = false := by
      have hx := DepositUSDC.verifyAllowanceLoop_any_false env.allowanceAt
        ctx.amountWei 1 10 DepositUSDC.DEv.isSendDeposit rfl rfl
      rw [hloop] at hx
      exact hx
    rw [hflow]
    refine ⟨rfl, ?_⟩
    simp [List.any_append, List.any_cons, hpretr, hlooptr,
      DepositUSDC.DEv.isSendDeposit]

/-- Witness for C6 at a concrete run: funded wallet whose allowance stays at
zero through the whole poll, so the flow fails with the allowance error and
no deposit is submitted. -/
theorem depositUSDC_allowance_poll_bounded_witness :
    (DepositUSDC.depositUSDC DepositUSDC.depositEnvStuck
        DepositUSDC.depositOptsSample).1 =
      Except.error DepositUSDC.DErr.allowanceNotObserved
    ∧ (DepositUSDC.depositUSDC DepositUSDC.depositEnvStuck
        DepositUSDC.depositOptsSample).2.any
        DepositUSDC.DEv.isSendDeposit = false :=
  depositUSDC_allowance_poll_bounded.2.2.2 DepositUSDC.depositEnvStuck
    DepositUSDC.depositOptsSample DepositUSDC.depositCtxSample
    [DepositUSDC.DEv.readDecimals] rfl (by decide) (by decide)
    (fun k hk =>
      show (0 : Nat) < 100000000 by decide)

namespace DepositUSDC

theorem depositUSDC_sendDeposit_inv {env : DepositEnv} {opts : DepositOptions}
    {dd : DepositData} {v : Nat}
    (h : DEv.sendDeposit dd v ∈ (depositUSDC env opts).2) :
    ∃ ctx tr0, depositPre env opts = (Except.ok ctx, tr0)
      ∧ dd = mkDepositData env ctx ∧ v = env.depositFee := by
  rcases hpre : depositPre env opts with ⟨rr, tr0⟩
  have hpretr : tr0.any DEv.isSendDeposit = false := by
    have hx := depositPre_any_false env opts DEv.isSendDeposit rfl rfl
    rw [hpre] at hx
    exact hx
  cases rr with
  | error e =>
    exfalso
    have hflow : depositUSDC env opts = (Except.error e, tr0) := by
      unfold depositUSDC
      exact runBind_of_error hpre
    rw [hflow] at h
    have := not_mem_of_any_false hpretr h
    simp [DEv.isSendDeposit] at this
  | ok ctx =>
    refine ⟨ctx, tr0, rfl, ?_⟩
    have hflowtr : (depositUSDC env opts).2 =
        tr0 ++ (depositMain env ctx).2 := by
      unfold depositUSDC
      rw [runBind_of_ok hpre]
    rw [hflowtr] at h
    rcases List.mem_append.mp h with h0 | h1
    · exfalso
      have := not_mem_of_any_false hpretr h0
      simp [DEv.isSendDeposit] at this
    · by_cases hbal : env.balance < ctx.amountWei
      · rw [depositMain_insufficient hbal] at h1
        simp at h1
      · by_cases hall : env.allowanceAt 0 < ctx.amountWei
        · rcases hloop : verifyAllowanceLoop env.allowanceAt ctx.amountWei 1 10
            with ⟨lr, ltr⟩
          have hlooptr : ltr.any DEv.isSendDeposit = false := by
            have hx := verifyAllowanceLoop_any_false env.allowanceAt
              ctx.amountWei 1 10 DEv.isSendDeposit rfl rfl
            rw [hloop] at hx
            exact hx
          cases lr with
          | ok u =>
            cases u
            rw [depositMain_approve_ok hbal hall hloop] at h1
            simp only [List.mem_cons, List.mem_append, List.mem_singleton,
              reduceCtorEq, false_or, or_false, List.not_mem_nil,
              DEv.sendDeposit.injEq] at h1
            rcases h1 with h1 | h1
            · exfalso
              have := not_mem_of_any_false hlooptr h1
              simp [DEv.isSendDeposit] at this
            · exact h1
          | error er =>
            rw [depositMain_approve_fail hbal hall hloop] at h1
            simp only [List.mem_cons, reduceCtorEq, false_or] at h1
            exfalso
            have := not_mem_of_any_false hlooptr h1
            simp [DEv.isSendDeposit] at this
        · rw [depositMain_skip hbal hall] at h1
          simp only [List.mem_cons, List.mem_singleton, reduceCtorEq,
            List.not_mem_nil, or_false, false_or, DEv.sendDeposit.injEq] at h1
          exact h1

end DepositUSDC

/-- C9: in every deposit flow, the tokenAmount carried by the submitted
deposit payload is the human amount scaled by the token's on-chain decimals
and truncated to 128 bits — the bitwise AND with the 128-bit all-ones mask,
equal to reduction modulo two to the 128 — and the brokerHash and tokenHash
of the payload are the keccak hashes of the UTF-8 bytes of the broker
identifier and of the USDC symbol, while the transaction value is the
queried deposit fee. -/
theorem depositUSDC_deposit_payload_spec :
    ∀ (env : DepositUSDC.DepositEnv) (opts : DepositUSDC.DepositOptions)
      (a : String) (w : Nat) (dd : DepositUSDC.DepositData) (v : Nat),
      opts.amount = some a →
      parseUnitsNat a env.decimals = some w →
      DepositUSDC.DEv.sendDeposit dd v ∈ (DepositUSDC.depositUSDC env opts).2 →
      dd.tokenAmount = w % 2 ^ 128
      ∧ dd.brokerHash =
          env.keccak (utf8Encode (opts.brokerId.getD DepositUSDC.BROKER_ID))
      ∧ dd.tokenHash = env.keccak (utf8Encode "USDC")
      ∧ v = env.depositFee := by
  intro env opts a w dd v hamt hparse hmem
  obtain ⟨ctx, tr0, hpre, hdd, hv⟩ :=
    DepositUSDC.depositUSDC_sendDeposit_inv hmem
  obtain ⟨hctxa, hctxp, hctxb⟩ := DepositUSDC.depositPre_ok_spec hpre
  have ha : ctx.amount = a := by rw [hctxa, hamt]; rfl
  rw [ha] at hctxp
  have hw : ctx.amountWei = w := by
    have := hctxp.symm.trans hparse
    exact Option.some.inj this
  subst hdd
  subst hv
  refine ⟨?_, ?_, rfl, rfl⟩
  · show ctx.amountWei &&& (2 ^ 128 - 1) = w % 2 ^ 128
    rw [hw]
    exact Nat.and_pow_two_sub_one_eq_mod w 128
  · show env.keccak (utf8Encode ctx.brokerId) = _
    rw [hctxb]

/-- Witness for C9 at a concrete run: the funded sample flow submits its
deposit payload with the expected truncated amount, hashes and fee. -/
theorem depositUSDC_deposit_payload_spec_witness :
    (DepositUSDC.mkDepositData DepositUSDC.depositEnvFunded
        DepositUSDC.depositCtxSample).tokenAmount = 100000000 % 2 ^ 128
    ∧ (DepositUSDC.mkDepositData DepositUSDC.depositEnvFunded
        DepositUSDC.depositCtxSample).brokerHash =
        DepositUSDC.depositEnvFunded.keccak
          (utf8Encode ((DepositUSDC.depositOptsSample.brokerId).getD
            DepositUSDC.BROKER_ID))
    ∧ (DepositUSDC.mkDepositData DepositUSDC.depositEnvFunded
        DepositUSDC.depositCtxSample).tokenHash =
        DepositUSDC.depositEnvFunded.keccak (utf8Encode "USDC")
    ∧ DepositUSDC.depositEnvFunded.depositFee =
        DepositUSDC.depositEnvFunded.depositFee :=
  depositUSDC_deposit_payload_spec DepositUSDC.depositEnvFunded
    DepositUSDC.depositOptsSample "100" 100000000
    (DepositUSDC.mkDepositData DepositUSDC.depositEnvFunded
      DepositUSDC.depositCtxSample)
    DepositUSDC.depositEnvFunded.depositFee rfl rfl (by decide)

/-- C7: getAccountId is deterministic, equals the published formula — the
keccak hash of the 32-byte left-padded address concatenated with the keccak
hash of the packed broker identifier — every copy of the function duplicated
across the source files computes the same function, and for a fixed broker
identifier two distinct addresses can only collide by exhibiting a keccak
collision. -/
theorem getAccountId_consistent_injective :
    ∀ (keccak256 : List Nat → List Nat) (a1 a2 : Nat) (b : String),
      WithdrawUSDC.getAccountId keccak256 a1 b =
        DepositUSDC.getAccountId keccak256 a1 b
      ∧ WithdrawUSDC.getAccountId keccak256 a1 b =
          CreateOrder.getAccountId keccak256 a1 b
      ∧ WithdrawUSDC.getAccountId keccak256 a1 b =
          SendTransaction.getAccountId keccak256 a1 b
      ∧ WithdrawUSDC.getAccountId keccak256 a1 b =
          ScriptPart001.getAccountId keccak256 a1 b
      ∧ WithdrawUSDC.getAccountId keccak256 a1 b =
          ScriptPart002.getAccountId keccak256 a1 b
      ∧ WithdrawUSDC.getAccountId keccak256 a1 b =
          deriveAccountIdSpec keccak256 a1 b
      ∧ (a1 = a2 → WithdrawUSDC.getAccountId keccak256 a1 b =
          WithdrawUSDC.getAccountId keccak256 a2 b)
      ∧ (a1 < 2 ^ 160 → a2 < 2 ^ 160 →
          WithdrawUSDC.getAccountId keccak256 a1 b =
            WithdrawUSDC.getAccountId keccak256 a2 b →
          a1 = a2 ∨ ∃ x y : List Nat, x ≠ y ∧ keccak256 x = keccak256 y) := by
  intro keccak256 a1 a2 b
  refine ⟨rfl, rfl, rfl, rfl, rfl, rfl, fun h => by rw [h], ?_⟩
  intro h1 h2 heq
  by_cases hab : a1 = a2
  · exact Or.inl hab
  · right
    refine ⟨natToBeBytes 32 a1 ++ keccak256 (utf8Encode b),
      natToBeBytes 32 a2 ++ keccak256 (utf8Encode b), ?_, heq⟩
    intro hx
    apply hab
    have hpow : (2 : Nat) ^ 160 < 256 ^ 32 := by norm_num
    exact natToBeBytes_inj (lt_trans h1 hpow) (lt_trans h2 hpow)
      (List.append_cancel_right hx)

/-- Witness for C7: the injectivity implication applied at a concrete hash
function and address pair. -/
theorem getAccountId_consistent_injective_witness :
    (0 : Nat) = 0 ∨
      ∃ x y : List Nat, x ≠ y ∧
        (fun _ : List Nat => ([] : List Nat)) x =
          (fun _ : List Nat => ([] : List Nat)) y :=
  (getAccountId_consistent_injective (fun _ => []) 0 0 "woofi_pro").2.2.2.2.2.2.2
    (by decide) (by decide) rfl

/-- C8: for every call, createAuthenticatedRequest signs exactly the UTF-8
bytes of the concatenation of the decimal timestamp, the method, the path
and the JSON-serialized body (empty string when the body is null), encodes
the detached signature as base64, returns headers carrying exactly that
timestamp, the account identifier, the public key and that base64 signature,
and returns as body the very serialization that entered the signing string
(absent when the body is null). -/
theorem createAuthenticatedRequest_canonical :
    ∀ (sign : List Nat → List Nat → List Nat) (nowMs : Nat)
      (method path : String) (body : Option JVal)
      (accountId orderlyKey : String) (privKey : List Nat),
      (OrderlyAuth.createAuthenticatedRequest sign nowMs method path body
        accountId orderlyKey privKey).method = method
      ∧ (OrderlyAuth.createAuthenticatedRequest sign nowMs method path body
          accountId orderlyKey privKey).headers =
          [("Content-Type", "application/json"),
           ("orderly-timestamp", toString nowMs),
           ("orderly-account-id", accountId),
           ("orderly-key", orderlyKey),
           ("orderly-signature",
             base64Encode (sign (utf8Encode (toString nowMs ++ method ++ path ++
               (body.map JVal.render).getD "")) privKey))]
      ∧ (OrderlyAuth.createAuthenticatedRequest sign nowMs method path body
          accountId orderlyKey privKey).body = body.map JVal.render := by
  intro sign nowMs method path body accountId orderlyKey privKey
  cases body <;>
    simp [OrderlyAuth.createAuthenticatedRequest, Option.map, Option.getD]

/-- C10: the withdrawal script uppercases the token symbol and looks it up
in the fixed five-entry decimals table; a symbol absent from the table is
silently given eighteen decimals instead of being rejected, so an unlisted
six-decimal token is scaled by a factor of ten to the twelfth too large,
with no error raised locally, and the context assembled by withdrawFunds
carries that oversized amount. -/
theorem withdraw_unlisted_token_default_decimals :
    WithdrawUSDC.TOKEN_DECIMALS =
      [("USDC", 6), ("USDT", 6), ("DAI", 18), ("WETH", 18), ("ETH", 18)]
    ∧ (∀ s : String, WithdrawUSDC.TOKEN_DECIMALS.lookup s = none →
        WithdrawUSDC.tokenDecimalsOrDefault s = 18)
    ∧ (∀ (s a : String) (v6 : Nat),
        WithdrawUSDC.TOKEN_DECIMALS.lookup (jsToUpper s) = none →
        parseUnitsNat a 6 = some v6 →
        parseUnitsNat a (WithdrawUSDC.tokenDecimalsOrDefault (jsToUpper s)) =
          some (v6 * 10 ^ 12))
    ∧ ∀ (env : WithdrawUSDC.WithdrawEnv) (opts : WithdrawUSDC.WithdrawOptions)
        (wctx : WithdrawUSDC.WCtx) (tr : List WithdrawUSDC.WEv)
        (s a : String) (v6 : Nat),
        WithdrawUSDC.withdrawPre env opts = (Except.ok wctx, tr) →
        opts.token = some s →
        opts.amount = some a →
        WithdrawUSDC.TOKEN_DECIMALS.lookup (jsToUpper s) = none →
        parseUnitsNat a 6 = some v6 →
        wctx.amountWei = v6 * 10 ^ 12 := by
  have hdef : ∀ s : String, WithdrawUSDC.TOKEN_DECIMALS.lookup s = none →
      WithdrawUSDC.tokenDecimalsOrDefault s = 18 := by
    intro s h
    unfold WithdrawUSDC.tokenDecimalsOrDefault
    rw [h]
  have hscale : ∀ (s a : String) (v6 : Nat),
      WithdrawUSDC.TOKEN_DECIMALS.lookup (jsToUpper s) = none →
      parseUnitsNat a 6 = some v6 →
      parseUnitsNat a (WithdrawUSDC.tokenDecimalsOrDefault (jsToUpper s)) =
        some (v6 * 10 ^ 12) := by
    intro s a v6 hl hp
    rw [hdef (jsToUpper s) hl]
    have := parseUnitsNat_scale 12 hp
    norm_num at this
    exact this
  refine ⟨rfl, hdef, hscale, ?_⟩
  intro env opts wctx tr s a v6 hpre hs ha hl hp
  obtain ⟨htok, hamt, hparse, _, _⟩ := WithdrawUSDC.withdrawPre_ok_spec hpre
  rw [hs] at htok
  rw [ha] at hamt
  have hamt2 : wctx.amount = a := by rw [hamt]; rfl
  have htok2 : wctx.token = jsToUpper s := by rw [htok]; rfl
  rw [hamt2, htok2] at hparse
  have := (hscale s a v6 hl hp).symm.trans hparse
  exact (Option.some.inj this).symm

/-- Witness for C10 at a concrete input: the unlisted symbol arb and the
amount 2.5, which a six-decimal token would scale to 2500000, is scaled to
2500000 times ten to the twelfth instead. -/
theorem withdraw_unlisted_token_default_decimals_witness :
    parseUnitsNat "2.5"
        (WithdrawUSDC.tokenDecimalsOrDefault (jsToUpper "arb")) =
      some (2500000 * 10 ^ 12) :=
  withdraw_unlisted_token_default_decimals.2.2.1 "arb" "2.5" 2500000
    (by decide) (by decide)

/-- Counterexample to C5: at a concrete key-grant message the outer JSON
request body carries the timestamp field as a numeric literal, not as a
decimal string, and at a concrete withdrawal message the value submitted
for EIP-712 signing carries the amount as a decimal string, not as a
numeric literal — so the claimed string-outside/number-inside split holds in
neither flow. -/
theorem message_encoding_split_counterexample :
    ((AddOrderlyKey.buildAddKeyRequestBody
        (AddOrderlyKey.buildAddKeyMessage "woofi_pro" 80001 "ed25519:pk"
          "read,trading" 1700000000000 1731536000000)
        "0xsig" "0xab").lookupField "message").map
      (fun m => m.lookupField "timestamp") =
      some (some (JVal.num 1700000000000))
    ∧ (∀ s : String, JVal.num 1700000000000 ≠ JVal.str s)
    ∧ (WithdrawUSDC.buildWithdrawMessage "woofi_pro" 80001 "0xab" "USDC"
        500000 42 1700000000000).lookupField "amount" =
      some (JVal.str "500000")
    ∧ (∀ n : Nat, JVal.str "500000" ≠ JVal.num n) := by
  refine ⟨rfl, ?_, rfl, ?_⟩
  · intro s h
    exact JVal.noConfusion h
  · intro n h
    exact JVal.noConfusion h

/-- C5 amended: within each message instance the encodings are uniform, not
split.  The withdrawal flow stores amount, withdrawNonce and timestamp as
decimal strings in the typed-data message it signs and embeds that same
message object in the outer request body; the key-grant flow stores
timestamp and expiration as numeric literals in the message it signs and
posts that same message object in the outer body. -/
theorem message_encodings_uniform :
    ∀ (brokerId : String) (chainIdNumber : Nat) (walletAddress token : String)
      (amountWei withdrawNonce nowMs : Nat) (m m2 : JVal)
      (signature orderlyKey scope : String) (timestamp expiration : Nat),
      (WithdrawUSDC.buildWithdrawMessage brokerId chainIdNumber walletAddress
        token amountWei withdrawNonce nowMs).lookupField "amount" =
        some (JVal.str (toString amountWei))
      ∧ (WithdrawUSDC.buildWithdrawMessage brokerId chainIdNumber walletAddress
          token amountWei withdrawNonce nowMs).lookupField "withdrawNonce" =
          some (JVal.str (toString withdrawNonce))
      ∧ (WithdrawUSDC.buildWithdrawMessage brokerId chainIdNumber walletAddress
          token amountWei withdrawNonce nowMs).lookupField "timestamp" =
          some (JVal.str (toString nowMs))
      ∧ (WithdrawUSDC.buildWithdrawRequestBody m signature
          walletAddress).lookupField "message" = some m
      ∧ (AddOrderlyKey.buildAddKeyMessage brokerId chainIdNumber orderlyKey
          scope timestamp expiration).lookupField "timestamp" =
          some (JVal.num timestamp)
      ∧ (AddOrderlyKey.buildAddKeyMessage brokerId chainIdNumber orderlyKey
          scope timestamp expiration).lookupField "expiration" =
          some (JVal.num expiration)
      ∧ (AddOrderlyKey.buildAddKeyRequestBody m2 signature
          walletAddress).lookupField "message" = some m2 := by
  intro brokerId chainIdNumber walletAddress token amountWei withdrawNonce
    nowMs m m2 signature orderlyKey scope timestamp expiration
  exact ⟨rfl, rfl, rfl, rfl, rfl, rfl, rfl⟩

namespace WithdrawUSDC

/-- Sample withdrawal environment: all credentials present and every
collaborator cooperative. -/
def withdrawEnvSample : WithdrawEnv :=
  { appId := some "app", appSecret := some "secret"
    authorizationId := some "auth", authorizationSecret := some "authsec"
    orderlyKey := some "ed25519:pk", orderlyPrivateKey := some "aa"
    resolvedAddress := some "0xab"
    nonceOk := true, nonceRaw := "", nonceValue := some 42
    signature := "0xsig", nowMs := 1700000000000
    keccak := fun _ => []
    withdrawOk := true, withdrawSuccess := true, withdrawRaw := "" }

/-- Sample options requesting a withdrawal of half a token unit, below the
protocol minimum of 1.001 units. -/
def withdrawOptsHalf : WithdrawOptions :=
  { walletId := some "wal", walletAddress := some "0xab"
    amount := some "0.5", token := none, chainId := none }

end WithdrawUSDC

/-- Counterexample to C1: called directly with the below-minimum amount 0.5
(as the HTTP server route does), withdrawFunds performs the nonce fetch —
an exchange network call — and completes without ever raising an
invalid-amount error, because the minimum-amount validation lives only in
the CLI entry point. -/
theorem withdrawFunds_below_minimum_fetches_nonce :
    (WithdrawUSDC.withdrawFunds WithdrawUSDC.withdrawEnvSample
        WithdrawUSDC.withdrawOptsHalf).2.any WithdrawUSDC.WEv.isNonceFetch = true
    ∧ (WithdrawUSDC.withdrawFunds WithdrawUSDC.withdrawEnvSample
        WithdrawUSDC.withdrawOptsHalf).1 =
      Except.ok
        { userAddress := "0xab", amount := "0.5", token := "USDC"
          targetChainId := 80001, withdrawNonce := 42 } := by
  exact ⟨rfl, rfl⟩

/-- C1 amended: the minimum-amount validation is performed by the CLI entry
point before withdrawFunds is invoked.  For every amount option whose
parseFloat value is NaN or strictly below 1.001 — rendered exactly on the
parsed fraction — the entry point rejects with the invalid-amount error and
performs no network call at all: the trace is empty, so in particular no
nonce fetch, no custody signing call and no exchange HTTP call occurs.
withdrawFunds itself performs no amount-minimum validation (the
counterexample exhibits it fetching the nonce for amount 0.5). -/
theorem withdraw_cli_minimum_check :
    ∀ (env : WithdrawUSDC.WithdrawEnv) (opts : WithdrawUSDC.WithdrawOptions)
      (a : String),
      opts.amount = some a →
      (jsParseFloat a = none ∨
        ∃ p : Int × Nat, jsParseFloat a = some p ∧
          p.1 * 1000 < 1001 * (p.2 : Int)) →
      WithdrawUSDC.mainValidateAndRun env opts =
        (Except.error WithdrawUSDC.WErr.invalidAmount, []) := by
  intro env opts a ha h
  unfold WithdrawUSDC.mainValidateAndRun
  rw [ha]
  try dsimp only
  rcases h with h | ⟨p, hp, hlt⟩
  · rw [h]
    rfl
  · rw [hp]
    try dsimp only
    rw [if_pos hlt]
    rfl

/-- Witness for the amended C1: amount 0.5 parses to the exact fraction
five tenths, which is below 1.001, so the CLI rejects it with an empty
effect trace. -/
theorem withdraw_cli_minimum_check_witness :
    WithdrawUSDC.mainValidateAndRun WithdrawUSDC.withdrawEnvSample
        WithdrawUSDC.withdrawOptsHalf =
      (Except.error WithdrawUSDC.WErr.invalidAmount, []) :=
  withdraw_cli_minimum_check WithdrawUSDC.withdrawEnvSample
    WithdrawUSDC.withdrawOptsHalf "0.5" rfl
    (Or.inr ⟨(5, 10), by decide, by decide⟩)

namespace AddOrderlyKey

/-- Sample key-grant environment in which the exchange answers with HTTP
status 200 but a payload whose success flag is false. -/
def addKeyEnvSample : AddKeyEnv :=
  { appId := some "app", appSecret := some "secret"
    authorizationId := some "auth", authorizationSecret := some "authsec"
    walletFound := true, resolvedAddress := some "0xab"
    genOrderlyKey := "ed25519:pk", genPrivateKeyHex := "aa"
    signature := "0xsig", nowMs := 1700000000000
    httpOk := true, httpRaw := "raw-body", bodySuccess := false }

/-- Sample key-grant options. -/
def addKeyOptsSample : AddKeyOptions :=
  { walletId := some "wal", walletAddress := some "0xab"
    chainId := none, brokerId := none }

end AddOrderlyKey

/-- Counterexample to C2: the key-grant operation accepts a 2xx response
whose payload carries success false — it returns a successful result
instead of surfacing the payload-level failure as a thrown error, so the
claim that both failure modes are surfaced in every operation that posts a
signed message fails for addOrderlyKey. -/
theorem addOrderlyKey_accepts_payload_failure :
    AddOrderlyKey.addKeyEnvSample.bodySuccess = false
    ∧ (AddOrderlyKey.addOrderlyKey AddOrderlyKey.addKeyEnvSample
        AddOrderlyKey.addKeyOptsSample).1 =
      Except.ok
        { userAddress := "0xab", orderlyKey := "ed25519:pk"
          orderlyPrivateKeyHex := "aa" } := by
  exact ⟨rfl, rfl⟩

/-- C2 amended: the withdrawal operation surfaces both an HTTP-level
failure and a payload-level success-false failure as thrown errors carrying
the raw response body; the key-grant operation surfaces only the HTTP-level
failure, and accepts any 2xx response — its payload success flag is never
inspected. -/
theorem exchange_failure_surfacing :
    (∀ (env : WithdrawUSDC.WithdrawEnv) (opts : WithdrawUSDC.WithdrawOptions)
      (wctx : WithdrawUSDC.WCtx) (tr : List WithdrawUSDC.WEv),
      WithdrawUSDC.withdrawPre env opts = (Except.ok wctx, tr) →
      ((env.withdrawOk = false →
        (WithdrawUSDC.withdrawFunds env opts).1 =
          Except.error (WithdrawUSDC.WErr.exchangeRejected env.withdrawRaw))
      ∧ (env.withdrawOk = true → env.withdrawSuccess = false →
        (WithdrawUSDC.withdrawFunds env opts).1 =
          Except.error (WithdrawUSDC.WErr.exchangeRejected env.withdrawRaw))))
    ∧ ∀ (kenv : AddOrderlyKey.AddKeyEnv) (kopts : AddOrderlyKey.AddKeyOptions)
        (kctx : AddOrderlyKey.KCtx) (ktr : List AddOrderlyKey.KEv),
        AddOrderlyKey.addKeyPre kenv kopts = (Except.ok kctx, ktr) →
        ((kenv.httpOk = false →
          (AddOrderlyKey.addOrderlyKey kenv kopts).1 =
            Except.error (AddOrderlyKey.KErr.addKeyFailed kenv.httpRaw))
        ∧ (kenv.httpOk = true →
          (AddOrderlyKey.addOrderlyKey kenv kopts).1 =
            Except.ok
              { userAddress := kctx.walletAddress
                orderlyKey := kctx.orderlyKey
                orderlyPrivateKeyHex := kctx.privateKeyHex })) := by
  constructor
  · intro env opts wctx tr hpre
    have hfst : (WithdrawUSDC.withdrawFunds env opts).1 =
        (WithdrawUSDC.withdrawMain env wctx).1 := by
      unfold WithdrawUSDC.withdrawFunds
      rw [runBind_of_ok hpre]
    constructor
    · intro h
      rw [hfst]
      simp [WithdrawUSDC.withdrawMain, runBind, runTell, runThrow, h]
    · intro h1 h2
      rw [hfst]
      simp [WithdrawUSDC.withdrawMain, runBind, runTell, runThrow, h1, h2]
  · intro kenv kopts kctx ktr hpre
    have hfst : (AddOrderlyKey.addOrderlyKey kenv kopts).1 =
        (AddOrderlyKey.addKeyMain kenv kctx).1 := by
      unfold AddOrderlyKey.addOrderlyKey
      rw [runBind_of_ok hpre]
    constructor
    · intro h
      rw [hfst]
      simp [AddOrderlyKey.addKeyMain, runBind, runTell, runThrow, h]
    · intro h
      rw [hfst]
      simp [AddOrderlyKey.addKeyMain, runBind, runTell, runThrow, runPure, h]

namespace WithdrawUSDC

/-- Sample options for a valid hundred-unit withdrawal. -/
def withdrawOpts100 : WithdrawOptions :=
  { walletId := some "wal", walletAddress := some "0xab"
    amount := some "100", token := none, chainId := none }

/-- Sample environment whose exchange rejects the withdrawal POST at the
HTTP level. -/
def withdrawEnvRejected : WithdrawEnv :=
  { withdrawEnvSample with withdrawOk := false, withdrawRaw := "boom" }

/-- Context the pre-stage assembles for the hundred-unit withdrawal. -/
def withdrawCtx100 : WCtx :=
  { walletAddress := "0xab", token := "USDC", chainIdNumber := 80001
    amount := "100", amountWei := 100000000, withdrawNonce := 42
    accountId := []
    message := buildWithdrawMessage "woofi_pro" 80001 "0xab" "USDC"
      100000000 42 1700000000000 }

end WithdrawUSDC

namespace AddOrderlyKey

/-- Context the pre-stage assembles for the sample key-grant. -/
def addKeyCtxSample : KCtx :=
  { walletAddress := "0xab", chainIdNumber := 80001
    brokerId := "woofi_pro", orderlyKey := "ed25519:pk"
    privateKeyHex := "aa"
    message := buildAddKeyMessage "woofi_pro" 80001 "ed25519:pk"
      "read,trading" 1700000000000 1731536000000 }

end AddOrderlyKey

/-- Witness for the amended C2 at concrete runs: an HTTP-rejected
withdrawal surfaces the raw body in its error, while a key-grant answered
with 2xx and success false returns a successful result. -/
theorem exchange_failure_surfacing_witness :
    (WithdrawUSDC.withdrawFunds WithdrawUSDC.withdrawEnvRejected
        WithdrawUSDC.withdrawOpts100).1 =
      Except.error (WithdrawUSDC.WErr.exchangeRejected "boom")
    ∧ (AddOrderlyKey.addOrderlyKey AddOrderlyKey.addKeyEnvSample
        AddOrderlyKey.addKeyOptsSample).1 =
      Except.ok
        { userAddress := "0xab", orderlyKey := "ed25519:pk"
          orderlyPrivateKeyHex := "aa" } :=
  ⟨(exchange_failure_surfacing.1 WithdrawUSDC.withdrawEnvRejected
      WithdrawUSDC.withdrawOpts100 WithdrawUSDC.withdrawCtx100
      [WithdrawUSDC.WEv.nonceFetch] rfl).1 rfl,
   (exchange_failure_surfacing.2 AddOrderlyKey.addKeyEnvSample
      AddOrderlyKey.addKeyOptsSample AddOrderlyKey.addKeyCtxSample
      [AddOrderlyKey.KEv.keyGen] rfl).2 rfl⟩
